import Mathlib

set_option maxHeartbeats 1000000

/-!
Shallow embedding of the geocoding adapters, the provider dispatch and the
batch runner of the repository (src/geocoding.py, src/kakao_geocoding.py).

Conventions of the embedding:
* JSON values, as produced by Python's `response.json()`, are the inductive
  type `Json`; numbers are kept as integers since no verified property
  inspects a numeric value.
* Exceptions are modelled with `Option`: a Python expression that can raise
  is embedded as an `Option`-valued function, and `none` means the exception
  was raised.  In the adapter methods every exception is swallowed by the
  enclosing `try/except` and yields the result `None`, which is exactly the
  `none` of the embedding.
* The HTTP layer is a parameter: an adapter call receives the `HttpResponse`
  the vendor would send, and additionally reports how many HTTP requests it
  issued, so that "no network call" is expressible.
* `time.sleep`, `print` diagnostics and the JSON dump to disk are external
  effects with no influence on the returned data; they are not modelled.
-/

/-- Parsed JSON values (the result of Python's `response.json()`). -/
inductive Json where
  | null
  | bool (b : Bool)
  | num (n : Int)
  | str (s : String)
  | arr (xs : List Json)
  | obj (kvs : List (String × Json))
deriving Repr, Inhabited

/-- `pd.isna(x)` on a cell: `Json.null` models both `None` and `NaN`. -/
def Json.isNull : Json → Bool
  | .null => true
  | _ => false

/-- Python `x == s` for a string literal `s`: only a string value can
compare equal to a string. -/
def pyEqStr (j : Json) (s : String) : Bool :=
  match j with
  | .str t => t == s
  | _ => false

/-- Python truthiness of a JSON value. -/
def Json.truthy : Json → Bool
  | .null => false
  | .bool b => b
  | .num n => n != 0
  | .str s => s != ""
  | .arr xs => !xs.isEmpty
  | .obj kvs => !kvs.isEmpty

/-- `d.get(k, default)` on a Python dict.  `none` models the
`AttributeError` raised when the receiver is not a dict. -/
def pyGetD (j : Json) (k : String) (d : Json) : Option Json :=
  match j with
  | .obj kvs => some ((kvs.lookup k).getD d)
  | _ => none

/-- `d.get(k)` (default `None`). -/
def pyGet (j : Json) (k : String) : Option Json :=
  pyGetD j k .null

/-- `x or y` in Python: `x` if truthy, else `y`. -/
def pyOr (a b : Json) : Json :=
  if a.truthy then a else b

/-- `k in j` for a string `k`: key membership on a dict, substring search on
a string, element membership on a list; `none` models the `TypeError`
raised on the remaining receivers. -/
def pyContains (j : Json) (k : String) : Option Bool :=
  match j with
  | .obj kvs => some (kvs.lookup k).isSome
  | .str s => some (decide (k.toList <:+: s.toList))
  | .arr xs => some (xs.any (fun x => pyEqStr x k))
  | _ => none

/-- `j[k]` for a string key `k`; `none` models the `TypeError`/`KeyError`
raised when the receiver is not a dict holding `k`. -/
def pySubscriptStr (j : Json) (k : String) : Option Json :=
  match j with
  | .obj kvs => kvs.lookup k
  | _ => none

/-- `j[0]`; `none` models the exception raised on non-sequences (indexing a
dict with `0` raises `KeyError` since all its keys are strings). -/
def pyIndexZero (j : Json) : Option Json :=
  match j with
  | .arr xs => xs.head?
  | .str s => (s.toList.head?).map (fun c => .str (String.mk [c]))
  | _ => none

/-- `iter(j)`: list elements, characters of a string, keys of a dict;
`none` models the `TypeError` on the remaining receivers. -/
def pyIter : Json → Option (List Json)
  | .arr xs => some xs
  | .str s => some (s.toList.map (fun c => Json.str (String.mk [c])))
  | .obj kvs => some (kvs.map (fun p => Json.str p.1))
  | _ => none

mutual
/-- Python `repr(...)` of a JSON value. -/
def pyRepr : Json → String
  | .null => "None"
  | .bool true => "True"
  | .bool false => "False"
  | .num n => toString n
  | .str s => "\x27" ++ s ++ "\x27"
  | .arr xs => "[" ++ pyReprList xs ++ "]"
  | .obj kvs => "\x7b" ++ pyReprPairs kvs ++ "\x7d"

/-- Comma-separated reprs of the elements of a list. -/
def pyReprList : List Json → String
  | [] => ""
  | [x] => pyRepr x
  | x :: y :: xs => pyRepr x ++ ", " ++ pyReprList (y :: xs)

/-- Comma-separated reprs of the entries of a dict. -/
def pyReprPairs : List (String × Json) → String
  | [] => ""
  | [(k, v)] => "\x27" ++ k ++ "\x27: " ++ pyRepr v
  | (k, v) :: p :: ps => "\x27" ++ k ++ "\x27: " ++ pyRepr v ++ ", " ++ pyReprPairs (p :: ps)
end

/-- Python `str(...)` of a JSON value. -/
def pyStr (j : Json) : String :=
  match j with
  | .str s => s
  | _ => pyRepr j

/-- Python `s.strip()`: drop leading and trailing whitespace.  (Defined on
the character list so that it evaluates by kernel reduction; `String.trim`
is extensionally the same but is defined by byte-position recursion.) -/
def pyStrip (s : String) : String :=
  ⟨((s.data.dropWhile Char.isWhitespace).reverse.dropWhile Char.isWhitespace).reverse⟩

/-- Python `s.lower()` (ASCII, which covers the provider names). -/
def pyLower (s : String) : String :=
  ⟨s.data.map Char.toLower⟩

/-- A vendor HTTP response: status code and the result of parsing the body
as JSON (`none` when `response.json()` raises). -/
structure HttpResponse where
  status : Nat
  body : Option Json
deriving Repr

/-! ## Kakao adapter (src/geocoding.py lines 26-187) -/

/-- The eight detail keys of the road-address namespace, in the insertion
order of the source. -/
def roadDetailKeys : List String :=
  ["road_region_1depth", "road_region_2depth", "road_region_3depth", "road_name",
   "road_main_building_no", "road_sub_building_no", "road_building_name",
   "road_underground_yn"]

/-- The nine detail keys of the lot-number (address) namespace, in the
insertion order of the source. -/
def addressDetailKeys : List String :=
  ["address_region_1depth", "address_region_2depth", "address_region_3depth",
   "address_region_3depth_h", "address_h_code", "address_b_code",
   "address_main_no", "address_sub_no", "address_mountain_yn"]

/-- Road-address half of the Kakao reverse-geocode result
(src/geocoding.py lines 124-150): `if "road_address" in doc and
doc["road_address"]: ... else: <empty strings>`. -/
def KakaoGeocodingAPI.roadPart (doc : Json) (include_details : Bool) :
    Option (List (String × Json)) :=
  match pyContains doc "road_address" with
  | none => none
  | some has =>
    if has then
      match pySubscriptStr doc "road_address" with
      | none => none
      | some rv =>
        if rv.truthy then
          match rv with
          | .obj road =>
            some ([("road_address", (road.lookup "address_name").getD (.str "")),
                   ("road_zone_no", (road.lookup "zone_no").getD (.str ""))] ++
              (if include_details then
                [("road_region_1depth", (road.lookup "region_1depth_name").getD (.str "")),
                 ("road_region_2depth", (road.lookup "region_2depth_name").getD (.str "")),
                 ("road_region_3depth", (road.lookup "region_3depth_name").getD (.str "")),
                 ("road_name", (road.lookup "road_name").getD (.str "")),
                 ("road_main_building_no", (road.lookup "main_building_no").getD (.str "")),
                 ("road_sub_building_no", (road.lookup "sub_building_no").getD (.str "")),
                 ("road_building_name", (road.lookup "building_name").getD (.str "")),
                 ("road_underground_yn", (road.lookup "underground_yn").getD (.str ""))]
               else []))
          | _ => none
        else
          some ([("road_address", Json.str ""), ("road_zone_no", Json.str "")] ++
            (if include_details then roadDetailKeys.map (fun k => (k, Json.str "")) else []))
    else
      some ([("road_address", Json.str ""), ("road_zone_no", Json.str "")] ++
        (if include_details then roadDetailKeys.map (fun k => (k, Json.str "")) else []))

/-- Lot-number half of the Kakao reverse-geocode result
(src/geocoding.py lines 152-178). -/
def KakaoGeocodingAPI.addrPart (doc : Json) (include_details : Bool) :
    Option (List (String × Json)) :=
  match pyContains doc "address" with
  | none => none
  | some has =>
    if has then
      match pySubscriptStr doc "address" with
      | none => none
      | some av =>
        if av.truthy then
          match av with
          | .obj addr =>
            some ([("address", (addr.lookup "address_name").getD (.str ""))] ++
              (if include_details then
                [("address_region_1depth", (addr.lookup "region_1depth_name").getD (.str "")),
                 ("address_region_2depth", (addr.lookup "region_2depth_name").getD (.str "")),
                 ("address_region_3depth", (addr.lookup "region_3depth_name").getD (.str "")),
                 ("address_region_3depth_h", (addr.lookup "region_3depth_h_name").getD (.str "")),
                 ("address_h_code", (addr.lookup "h_code").getD (.str "")),
                 ("address_b_code", (addr.lookup "b_code").getD (.str "")),
                 ("address_main_no", (addr.lookup "main_address_no").getD (.str "")),
                 ("address_sub_no", (addr.lookup "sub_address_no").getD (.str "")),
                 ("address_mountain_yn", (addr.lookup "mountain_yn").getD (.str ""))]
               else []))
          | _ => none
        else
          some ([("address", Json.str "")] ++
            (if include_details then addressDetailKeys.map (fun k => (k, Json.str "")) else []))
    else
      some ([("address", Json.str "")] ++
        (if include_details then addressDetailKeys.map (fun k => (k, Json.str "")) else []))

/-- Body-processing part of `KakaoGeocodingAPI.reverse_geocode_coords`
(src/geocoding.py lines 117-180): everything after `data = response.json()`.
`documents = data.get("documents", [])`; `if not documents: return None`;
the result dict is the road half followed by the address half. -/
def KakaoGeocodingAPI.reverse_body (data : Json) (include_details : Bool) :
    Option (List (String × Json)) :=
  match pyGetD data "documents" (.arr []) with
  | none => none
  | some documents =>
    if documents.truthy then
      match pyIndexZero documents with
      | none => none
      | some doc =>
        match KakaoGeocodingAPI.roadPart doc include_details,
              KakaoGeocodingAPI.addrPart doc include_details with
        | some rp, some ap => some (rp ++ ap)
        | _, _ => none
    else none

/-- `KakaoGeocodingAPI.reverse_geocode_coords` (src/geocoding.py lines
83-187): the missing-coordinate guard, one HTTP request, status handling,
body parsing.  `pd.isna` of a coordinate cell is modelled as the cell being
`Json.null`.  Returns the result and the number of HTTP requests issued. -/
def KakaoGeocodingAPI.reverse_geocode_coords (resp : HttpResponse)
    (longitude latitude : Json) (include_details : Bool) :
    Option (List (String × Json)) × Nat :=
  if longitude.isNull || latitude.isNull then (none, 0)
  else
    -- one `requests.get`; a 403 prints a diagnostic; `raise_for_status`
    -- turns any 4xx/5xx into an exception that the handler maps to `None`.
    if 400 ≤ resp.status then (none, 1)
    else
      match resp.body with
      | none => (none, 1)
      | some data => (KakaoGeocodingAPI.reverse_body data include_details, 1)

/-- Body-processing part of `KakaoGeocodingAPI.geocode_address`
(src/geocoding.py lines 66-74).  The `float(...)` coercion of the vendor
coordinates is kept symbolic: the raw JSON value of `doc.get("x", 0) or 0`
is stored, since no verified property inspects the numeric value. -/
def KakaoGeocodingAPI.geocode_body (data : Json) : Option (List (String × Json)) :=
  match pyGetD data "documents" (.arr []) with
  | none => none
  | some documents =>
    if documents.truthy then
      match pyIndexZero documents with
      | none => none
      | some doc =>
        match doc with
        | .obj d =>
          some [("longitude", pyOr ((d.lookup "x").getD (.num 0)) (.num 0)),
                ("latitude", pyOr ((d.lookup "y").getD (.num 0)) (.num 0)),
                ("address_name", (d.lookup "address_name").getD (.str "")),
                ("address_type", (d.lookup "address_type").getD (.str ""))]
        | _ => none
    else none

/-- `KakaoGeocodingAPI.geocode_address` (src/geocoding.py lines 49-81):
`if pd.isna(address) or address == "": return None` and then at most one
HTTP request.  Returns the result and the number of requests issued. -/
def KakaoGeocodingAPI.geocode_address (resp : HttpResponse) (address : Json) :
    Option (List (String × Json)) × Nat :=
  if address.isNull || pyEqStr address "" then (none, 0)
  else
    if 400 ≤ resp.status then (none, 1)
    else
      match resp.body with
      | none => (none, 1)
      | some data => (KakaoGeocodingAPI.geocode_body data, 1)

/-! ## Naver adapter (src/geocoding.py lines 190-372 and helpers 615-688) -/

/-- `_pick_naver_result` (src/geocoding.py lines 615-619): the first entry
of the results list that is a dict whose `"name"` equals the given name. -/
def _pick_naver_result (results : List Json) (nm : String) : Option Json :=
  results.find? (fun r =>
    match r with
    | .obj kvs => pyEqStr ((kvs.lookup "name").getD .null) nm
    | _ => false)

/-- Synthesised text of `_naver_result_text` (src/geocoding.py lines
629-649): region area names, land name and the hyphenated lot number. -/
def naverSynthText (kvs : List (String × Json)) : Option String := do
  let region := pyOr ((kvs.lookup "region").getD .null) (.obj [])
  let land := pyOr ((kvs.lookup "land").getD .null) (.obj [])
  let a1 ← pyGetD (pyOr (← pyGet region "area1") (.obj [])) "name" (.str "")
  let a2 ← pyGetD (pyOr (← pyGet region "area2") (.obj [])) "name" (.str "")
  let a3 ← pyGetD (pyOr (← pyGet region "area3") (.obj [])) "name" (.str "")
  let a4 ← pyGetD (pyOr (← pyGet region "area4") (.obj [])) "name" (.str "")
  let parts := [a1, a2, a3, a4].filter Json.truthy
  let land_name := pyOr ((← pyGet land "name")) (.str "")
  let number1 := pyOr ((← pyGet land "number1")) (.str "")
  let number2 := pyOr ((← pyGet land "number2")) (.str "")
  let parts := parts ++ (if land_name.truthy then [Json.str (pyStr land_name)] else [])
  let parts := parts ++
    (if number1.truthy then
      [Json.str (if number2.truthy then pyStr number1 ++ "-" ++ pyStr number2
                 else pyStr number1)]
     else [])
  some (String.intercalate " "
    ((parts.map (fun p => pyStrip (pyStr p))).filter (fun s => s != "")))

/-- `_naver_result_text` (src/geocoding.py lines 622-649): prefer the
trimmed `text` field when it is a non-blank string, else synthesise. -/
def _naver_result_text (result : Json) : Option String :=
  if ¬ result.truthy then some "" else
  match result with
  | .obj kvs =>
    match (kvs.lookup "text").getD .null with
    | .str t => if pyStrip t ≠ "" then some (pyStrip t) else naverSynthText kvs
    | _ => naverSynthText kvs
  | _ => some ""

/-- `_naver_road_name` (src/geocoding.py lines 652-658). -/
def _naver_road_name (result : Json) : Option String :=
  if ¬ result.truthy then some "" else
  match result with
  | .obj kvs => do
    let land := pyOr ((kvs.lookup "land").getD .null) (.obj [])
    let nm ← pyGet land "name"
    some (if nm.truthy then pyStrip (pyStr nm) else "")
  | _ => some ""

/-- `_naver_building_name` (src/geocoding.py lines 661-667). -/
def _naver_building_name (result : Json) : Option String :=
  if ¬ result.truthy then some "" else
  match result with
  | .obj kvs => do
    let land := pyOr ((kvs.lookup "land").getD .null) (.obj [])
    let addition0 := pyOr (← pyGet land "addition0") (.obj [])
    let nm : Json :=
      match addition0 with
      | .obj ak => (ak.lookup "value").getD .null
      | _ => .str ""
    some (if nm.truthy then pyStrip (pyStr nm) else "")
  | _ => some ""

/-- `region = (base.get("region") or {}) if isinstance(base, dict) else {}`
(src/geocoding.py line 335). -/
def naverRegionOf (base : Json) : Json :=
  match base with
  | .obj bk => pyOr ((bk.lookup "region").getD .null) (.obj [])
  | _ => .obj []

/-- `areaN = (region.get("areaN") or {}).get("name", "")`
(src/geocoding.py lines 336-338). -/
def naverAreaName (region : Json) (k : String) : Option Json := do
  pyGetD (pyOr (← pyGet region k) (.obj [])) "name" (.str "")

/-- The twenty keys of the Naver detail-mode reverse-geocode result, in the
insertion order of the source (src/geocoding.py lines 328-358). -/
def naverDetailKeys : List String :=
  ["road_address", "address", "road_zone_no",
   "road_region_1depth", "road_region_2depth", "road_region_3depth",
   "road_name", "road_main_building_no", "road_sub_building_no",
   "road_building_name", "road_underground_yn",
   "address_region_1depth", "address_region_2depth", "address_region_3depth",
   "address_region_3depth_h", "address_h_code", "address_b_code",
   "address_main_no", "address_sub_no", "address_mountain_yn"]

/-- Body-processing part of `NaverGeocodingAPI.reverse_geocode_coords`
(src/geocoding.py lines 320-360): everything after `data = response.json()`.
`base = road or addr or results[0]` is faithful because a picked entry is a
dict containing `"name"`, hence non-empty and truthy. -/
def NaverGeocodingAPI.reverse_body (data : Json) (include_details : Bool) :
    Option (List (String × Json)) :=
  let resultsJ : Json :=
    match data with
    | .obj kvs => pyOr ((kvs.lookup "results").getD .null) (.arr [])
    | _ => .arr []
  if resultsJ.truthy then
    match pyIter resultsJ with
    | none => none
    | some rlist =>
      let road := _pick_naver_result rlist "roadaddr"
      let addr := _pick_naver_result rlist "addr"
      let baseO : Option Json :=
        match road with
        | some r => some r
        | none =>
          match addr with
          | some a => some a
          | none => pyIndexZero resultsJ
      match baseO with
      | none => none
      | some base =>
        match (match road with | some r => _naver_result_text r | none => some ""),
              (match addr with | some a => _naver_result_text a | none => some "") with
        | some rt, some atx =>
          if include_details then
            let region := naverRegionOf base
            match naverAreaName region "area1", naverAreaName region "area2",
                  naverAreaName region "area3",
                  (match road with | some r => _naver_road_name r | none => some ""),
                  (match road with | some r => _naver_building_name r | none => some "") with
            | some a1, some a2, some a3, some rn, some bn =>
              some [("road_address", Json.str rt), ("address", Json.str atx),
                    ("road_zone_no", Json.str ""),
                    ("road_region_1depth", a1), ("road_region_2depth", a2),
                    ("road_region_3depth", a3),
                    ("road_name", Json.str rn),
                    ("road_main_building_no", Json.str ""),
                    ("road_sub_building_no", Json.str ""),
                    ("road_building_name", Json.str bn),
                    ("road_underground_yn", Json.str ""),
                    ("address_region_1depth", a1), ("address_region_2depth", a2),
                    ("address_region_3depth", a3),
                    ("address_region_3depth_h", Json.str ""),
                    ("address_h_code", Json.str ""), ("address_b_code", Json.str ""),
                    ("address_main_no", Json.str ""), ("address_sub_no", Json.str ""),
                    ("address_mountain_yn", Json.str "")]
            | _, _, _, _, _ => none
          else
            some [("road_address", Json.str rt), ("address", Json.str atx)]
        | _, _ => none
  else none

/-- `NaverGeocodingAPI.reverse_geocode_coords` (src/geocoding.py lines
284-372): missing-coordinate guard, one HTTP request, auth/status handling,
body parsing.  Returns the result and the number of requests issued. -/
def NaverGeocodingAPI.reverse_geocode_coords (resp : HttpResponse)
    (longitude latitude : Json) (include_details : Bool) :
    Option (List (String × Json)) × Nat :=
  if longitude.isNull || latitude.isNull then (none, 0)
  else
    if 400 ≤ resp.status then (none, 1)
    else
      match resp.body with
      | none => (none, 1)
      | some data => (NaverGeocodingAPI.reverse_body data include_details, 1)

/-- Body-processing part of `NaverGeocodingAPI.geocode_address`
(src/geocoding.py lines 260-270).  The `float(...)` coercion is kept
symbolic as in the Kakao embedding. -/
def NaverGeocodingAPI.geocode_body (data : Json) : Option (List (String × Json)) :=
  match pyGetD data "addresses" (.arr []) with
  | none => none
  | some addresses =>
    if addresses.truthy then
      match pyIndexZero addresses with
      | none => none
      | some first =>
        match first with
        | .obj f =>
          some [("longitude", pyOr ((f.lookup "x").getD (.num 0)) (.num 0)),
                ("latitude", pyOr ((f.lookup "y").getD (.num 0)) (.num 0)),
                ("road_address", pyOr ((f.lookup "roadAddress").getD (.str "")) (.str "")),
                ("address", pyOr ((f.lookup "jibunAddress").getD (.str "")) (.str ""))]
        | _ => none
    else none

/-- `NaverGeocodingAPI.geocode_address` (src/geocoding.py lines 246-282):
the missing/empty-address guard and at most one HTTP request. -/
def NaverGeocodingAPI.geocode_address (resp : HttpResponse) (address : Json) :
    Option (List (String × Json)) × Nat :=
  if address.isNull || pyEqStr address "" then (none, 0)
  else
    if 400 ≤ resp.status then (none, 1)
    else
      match resp.body with
      | none => (none, 1)
      | some data => (NaverGeocodingAPI.geocode_body data, 1)

/-! ## Legacy Kakao module (src/kakao_geocoding.py lines 95-236)

The older module checks only `if "road_address" in doc:` (without the
truthiness test of src/geocoding.py), so a namespace that is present but
`null` makes `road.get(...)` raise and the call return `None`. -/

/-- Road-address half of `KakaoGeocodingAPI._reverse_geocode_coords`
(src/kakao_geocoding.py lines 170-196). -/
def kakaoLegacyRoadPart (doc : Json) (include_details : Bool) :
    Option (List (String × Json)) :=
  match pyContains doc "road_address" with
  | none => none
  | some has =>
    if has then
      match pySubscriptStr doc "road_address" with
      | none => none
      | some rv =>
        match rv with
        | .obj road =>
          some ([("road_address", (road.lookup "address_name").getD (.str "")),
                 ("road_zone_no", (road.lookup "zone_no").getD (.str ""))] ++
            (if include_details then
              [("road_region_1depth", (road.lookup "region_1depth_name").getD (.str "")),
               ("road_region_2depth", (road.lookup "region_2depth_name").getD (.str "")),
               ("road_region_3depth", (road.lookup "region_3depth_name").getD (.str "")),
               ("road_name", (road.lookup "road_name").getD (.str "")),
               ("road_main_building_no", (road.lookup "main_building_no").getD (.str "")),
               ("road_sub_building_no", (road.lookup "sub_building_no").getD (.str "")),
               ("road_building_name", (road.lookup "building_name").getD (.str "")),
               ("road_underground_yn", (road.lookup "underground_yn").getD (.str ""))]
             else []))
        | _ => none
    else
      some ([("road_address", Json.str ""), ("road_zone_no", Json.str "")] ++
        (if include_details then roadDetailKeys.map (fun k => (k, Json.str "")) else []))

/-- Lot-number half of `KakaoGeocodingAPI._reverse_geocode_coords`
(src/kakao_geocoding.py lines 198-224). -/
def kakaoLegacyAddrPart (doc : Json) (include_details : Bool) :
    Option (List (String × Json)) :=
  match pyContains doc "address" with
  | none => none
  | some has =>
    if has then
      match pySubscriptStr doc "address" with
      | none => none
      | some av =>
        match av with
        | .obj addr =>
          some ([("address", (addr.lookup "address_name").getD (.str ""))] ++
            (if include_details then
              [("address_region_1depth", (addr.lookup "region_1depth_name").getD (.str "")),
               ("address_region_2depth", (addr.lookup "region_2depth_name").getD (.str "")),
               ("address_region_3depth", (addr.lookup "region_3depth_name").getD (.str "")),
               ("address_region_3depth_h", (addr.lookup "region_3depth_h_name").getD (.str "")),
               ("address_h_code", (addr.lookup "h_code").getD (.str "")),
               ("address_b_code", (addr.lookup "b_code").getD (.str "")),
               ("address_main_no", (addr.lookup "main_address_no").getD (.str "")),
               ("address_sub_no", (addr.lookup "sub_address_no").getD (.str "")),
               ("address_mountain_yn", (addr.lookup "mountain_yn").getD (.str ""))]
             else []))
        | _ => none
    else
      some ([("address", Json.str "")] ++
        (if include_details then addressDetailKeys.map (fun k => (k, Json.str "")) else []))

/-- Body-processing part of `KakaoGeocodingAPI._reverse_geocode_coords`
(src/kakao_geocoding.py lines 165-226). -/
def kakaoLegacyReverseBody (data : Json) (include_details : Bool) :
    Option (List (String × Json)) :=
  match pyGetD data "documents" (.arr []) with
  | none => none
  | some documents =>
    if documents.truthy then
      match pyIndexZero documents with
      | none => none
      | some doc =>
        match kakaoLegacyRoadPart doc include_details,
              kakaoLegacyAddrPart doc include_details with
        | some rp, some ap => some (rp ++ ap)
        | _, _ => none
    else none

/-! ## Provider dispatch (src/geocoding.py lines 375-392) -/

/-- The two supported providers. -/
inductive Provider where
  | kakao
  | naver
deriving Repr, DecidableEq

/-- The process-wide dispatch state: the `_provider_instances` cache (name
to instance id), a fresh-id counter, and the log of constructed adapters
(so that "no adapter constructed" is expressible). -/
structure DispatchState where
  instances : List (String × Nat)
  nextId : Nat
  constructions : List Provider
deriving Repr, DecidableEq

/-- The empty cache at process start. -/
def DispatchState.start : DispatchState :=
  ⟨[], 0, []⟩

/-- The error message of `_get_provider` for an unsupported name. -/
def providerErrMsg : String :=
  "provider는 \x27kakao\x27 또는 \x27naver\x27만 지원합니다."

/-- The error message raised by an adapter constructor when its
credentials are absent. -/
def credentialsErrMsg : String :=
  "API 키를 찾을 수 없습니다."

/-- `(provider or "kakao").strip().lower()` (src/geocoding.py line 379);
`none` models `provider=None`. -/
def _provider_key (provider : Option String) : String :=
  (match provider with
   | none => "kakao"
   | some s => if s = "" then "kakao" else s) |> pyStrip |> pyLower

/-- `_get_provider` (src/geocoding.py lines 378-392).  `env p` says whether
credentials for `p` can be resolved (adapter constructors raise
`ValueError` otherwise).  Returns the state after the call and either the
instance id or the raised error. -/
def _get_provider (env : Provider → Bool) (provider : Option String)
    (st : DispatchState) : DispatchState × Except String Nat :=
  let p := _provider_key provider
  if p ≠ "kakao" ∧ p ≠ "naver" then
    (st, .error providerErrMsg)
  else
    match st.instances.lookup p with
    | some i => (st, .ok i)
    | none =>
      let prov := if p = "kakao" then Provider.kakao else Provider.naver
      if env prov then
        (⟨st.instances ++ [(p, st.nextId)], st.nextId + 1,
          st.constructions ++ [prov]⟩, .ok st.nextId)
      else
        (st, .error credentialsErrMsg)

/-- The provider an accepted name resolves to. -/
def resolvedProvider (provider : Option String) : Provider :=
  if _provider_key provider = "naver" then Provider.naver else Provider.kakao

/-! ## Tabular data and the batch runner (src/geocoding.py lines 395-546)

A DataFrame is a list of column names and rows of cells aligned with them.
Cells are `Json` values; `Json.null` models both `None` and `NaN`.  The
row index is the default positional `RangeIndex`, so `df.at[idx, col]`
writes the row at position `idx`.  Python aliasing of frames is made
explicit with a heap (a list of frames) and references (indices into it):
`df.copy()` allocates a fresh frame, and all writes of the batch functions
go through the reference of the copy. -/

/-- An in-memory DataFrame: named columns and cell rows aligned with them. -/
structure Frame where
  cols : List String
  rows : List (List Json)
deriving Repr, Inhabited

/-- Position of a column. -/
def Frame.colIdx (f : Frame) (c : String) : Option Nat :=
  f.cols.findIdx? (fun x => x == c)

/-- `row[c]` for a row of `cols`-aligned cells. -/
def rowGet (cols : List String) (row : List Json) (c : String) : Json :=
  match cols.findIdx? (fun x => x == c) with
  | some j => row.getD j .null
  | none => .null

/-- Write one cell of a `cols`-aligned row.  The batch loops only ever
write into columns they created before the loop, so the column is present. -/
def rowSet (cols : List String) (row : List Json) (c : String) (v : Json) :
    List Json :=
  match cols.findIdx? (fun x => x == c) with
  | some j => row.set j v
  | none => row

/-- `df[c] = v`: overwrite an existing column, or append a new one. -/
def Frame.setColAll (f : Frame) (c : String) (v : Json) : Frame :=
  match f.colIdx c with
  | some j => ⟨f.cols, f.rows.map (fun r => r.set j v)⟩
  | none => ⟨f.cols ++ [c], f.rows.map (fun r => r ++ [v])⟩

/-- The eighteen `detail_columns` of `reverse_geocode`
(src/geocoding.py lines 479-498), in source order. -/
def detail_columns : List String :=
  ["road_zone_no",
   "road_region_1depth", "road_region_2depth", "road_region_3depth",
   "road_name", "road_main_building_no", "road_sub_building_no",
   "road_building_name", "road_underground_yn",
   "address_region_1depth", "address_region_2depth", "address_region_3depth",
   "address_region_3depth_h", "address_h_code", "address_b_code",
   "address_main_no", "address_sub_no", "address_mountain_yn"]

/-- One iteration of the `geocode` loop (src/geocoding.py lines 425-434):
read the address cell, call the adapter, and on a truthy result write the
longitude/latitude cells of the same row. -/
def geocodeRowStep (api : Json → Option (List (String × Json)))
    (cols : List String) (address_column longitude_column latitude_column : String)
    (row : List Json) : List Json :=
  let address := rowGet cols row address_column
  match api address with
  | some result =>
    if result.isEmpty then row
    else
      rowSet cols
        (rowSet cols row longitude_column ((result.lookup "longitude").getD .null))
        latitude_column ((result.lookup "latitude").getD .null)
  | none => row

/-- One iteration of the `reverse_geocode` loop (src/geocoding.py lines
515-536): read the coordinate cells, call the adapter, and on a truthy
result write the base address cells and, in detail mode, every detail cell
of the same row (missing keys default to the empty string). -/
def reverseRowStep (api : Json → Json → Option (List (String × Json)))
    (cols : List String)
    (longitude_column latitude_column address_column road_address_column : String)
    (include_details : Bool) (row : List Json) : List Json :=
  let lon := rowGet cols row longitude_column
  let lat := rowGet cols row latitude_column
  match api lon lat with
  | some result =>
    if result.isEmpty then row
    else
      let r1 := rowSet cols row address_column ((result.lookup "address").getD (.str ""))
      let r2 := rowSet cols r1 road_address_column
        ((result.lookup "road_address").getD (.str ""))
      if include_details then
        detail_columns.foldl
          (fun r c => rowSet cols r c ((result.lookup c).getD (.str ""))) r2
      else r2
  | none => row

/-- The row loop of both batch functions: for each position in order, the
row at that position is replaced using the current frame contents at that
position (this is the shape of the Python `for idx, row in df.iterrows()`
loop writing through `df.at[idx, ...]`). -/
def framePassRows (step : List Json → List Json) (rows : List (List Json)) :
    List (List Json) :=
  (List.range rows.length).foldl
    (fun acc i => acc.set i (step (acc.getD i []))) rows

/-- `geocode` after column validation and provider resolution
(src/geocoding.py lines 420-440): initialise the two output columns to
`None`, then run the row loop. -/
def geocodeFrame (api : Json → Option (List (String × Json))) (df : Frame)
    (address_column longitude_column latitude_column : String) : Frame :=
  let df1 := (df.setColAll longitude_column .null).setColAll latitude_column .null
  ⟨df1.cols,
   framePassRows
     (geocodeRowStep api df1.cols address_column longitude_column latitude_column)
     df1.rows⟩

/-- `reverse_geocode` after column validation and provider resolution
(src/geocoding.py lines 476-542): initialise the base output columns and,
in detail mode, the eighteen detail columns, then run the row loop. -/
def reverseGeocodeFrame (api : Json → Json → Option (List (String × Json)))
    (df : Frame)
    (longitude_column latitude_column address_column road_address_column : String)
    (include_details : Bool) : Frame :=
  let df1 := (df.setColAll address_column .null).setColAll road_address_column .null
  let df2 := if include_details then
      detail_columns.foldl (fun g c => g.setColAll c .null) df1
    else df1
  ⟨df2.cols,
   framePassRows
     (reverseRowStep api df2.cols longitude_column latitude_column
        address_column road_address_column include_details)
     df2.rows⟩

/-- The object heap for frames; a reference is an index into it. -/
abbrev Heap := List Frame

/-- The public `geocode` entry point (src/geocoding.py lines 395-440), with
frame aliasing explicit.  In source order: the column check (line 414),
`df = df.copy()` (line 417, allocating a fresh frame; every later write
goes to the copy), `_get_provider` (line 418), then the batch loop on the
copy.  `apiOf p` is the per-call behaviour of provider `p`'s adapter.
Returns the heap after the call, the dispatch state after the call, and
either the reference of the returned frame or the raised error. -/
def geocode (env : Provider → Bool)
    (apiOf : Provider → Json → Option (List (String × Json)))
    (st : DispatchState) (hp : Heap) (dfRef : Nat)
    (address_column longitude_column latitude_column : String)
    (provider : Option String) :
    Heap × DispatchState × Except String Nat :=
  let df := hp.getD dfRef default
  if address_column ∈ df.cols then
    match _get_provider env provider st with
    | (st1, .error e) => (hp ++ [df], st1, .error e)
    | (st1, .ok _) =>
      let out := geocodeFrame (apiOf (resolvedProvider provider)) df
        address_column longitude_column latitude_column
      (hp ++ [out], st1, .ok hp.length)
  else
    (hp, st, .error ("컬럼 \x27" ++ address_column ++ "\x27이 데이터프레임에 없습니다."))

/-- The public `reverse_geocode` entry point (src/geocoding.py lines
443-546), with frame aliasing explicit, analogous to `geocode`.  `apiOf p`
is the per-call behaviour of provider `p`'s reverse operation with the
chosen detail mode already applied. -/
def reverse_geocode (env : Provider → Bool)
    (apiOf : Provider → Json → Json → Option (List (String × Json)))
    (st : DispatchState) (hp : Heap) (dfRef : Nat)
    (longitude_column latitude_column address_column road_address_column : String)
    (include_details : Bool) (provider : Option String) :
    Heap × DispatchState × Except String Nat :=
  let df := hp.getD dfRef default
  if longitude_column ∈ df.cols then
    if latitude_column ∈ df.cols then
      match _get_provider env provider st with
      | (st1, .error e) => (hp ++ [df], st1, .error e)
      | (st1, .ok _) =>
        let out := reverseGeocodeFrame (apiOf (resolvedProvider provider)) df
          longitude_column latitude_column address_column road_address_column
          include_details
        (hp ++ [out], st1, .ok hp.length)
    else
      (hp, st, .error ("컬럼 \x27" ++ latitude_column ++ "\x27이 데이터프레임에 없습니다."))
  else
    (hp, st, .error ("컬럼 \x27" ++ longitude_column ++ "\x27이 데이터프레임에 없습니다."))

/-! ## Helper lemmas -/

/-- Association-list lookup distributes over append. -/
theorem lookup_append {α β : Type} [BEq α] (k : α) :
    ∀ (l1 l2 : List (α × β)),
      List.lookup k (l1 ++ l2) = (List.lookup k l1).or (List.lookup k l2) := by
  intro l1 l2
  induction l1 with
  | nil => simp [List.lookup]
  | cons p t ih =>
    cases h : k == p.1 <;> simp [List.lookup, h, ih]

/-! ## C1: reverse geocoding with zero result entries -/

/-- C1 counterexample: on both providers, a successfully parsed vendor
response with zero result entries makes `reverse_geocode_coords` return an
absent result (`None`), not a result with empty `road_address`/`address`
strings. -/
theorem c1_counterexample :
    KakaoGeocodingAPI.reverse_geocode_coords
        ⟨200, some (Json.obj [("documents", Json.arr [])])⟩
        (Json.num 127) (Json.num 37) true = (none, 1)
    ∧ NaverGeocodingAPI.reverse_geocode_coords
        ⟨200, some (Json.obj [("results", Json.arr [])])⟩
        (Json.num 127) (Json.num 37) true = (none, 1) :=
  ⟨rfl, rfl⟩

/-- C1 (amended): for every reverse-geocode call, on either provider, whose
vendor response parses successfully but contains zero result entries, the
call returns an absent result (`None`) after its single HTTP request. -/
theorem c1_zero_entries_absent_result :
    ∀ (respK respN : HttpResponse) (lon lat : Json) (incl : Bool)
      (kvsK kvsN : List (String × Json)),
      respK.status < 400 → respK.body = some (Json.obj kvsK) →
      (kvsK.lookup "documents" = some (Json.arr []) ∨ kvsK.lookup "documents" = none) →
      respN.status < 400 → respN.body = some (Json.obj kvsN) →
      (kvsN.lookup "results" = some (Json.arr []) ∨ kvsN.lookup "results" = none) →
      lon.isNull = false → lat.isNull = false →
      KakaoGeocodingAPI.reverse_geocode_coords respK lon lat incl = (none, 1)
      ∧ NaverGeocodingAPI.reverse_geocode_coords respN lon lat incl = (none, 1) := by
  intro respK respN lon lat incl kvsK kvsN hk1 hk2 hk3 hn1 hn2 hn3 hlon hlat
  constructor
  · unfold KakaoGeocodingAPI.reverse_geocode_coords
    rw [hlon, hlat]
    simp only [Bool.or_self, Bool.false_eq_true, if_false]
    rw [if_neg (by omega), hk2]
    unfold KakaoGeocodingAPI.reverse_body
    rcases hk3 with h | h <;> simp [pyGetD, h, Json.truthy]
  · unfold NaverGeocodingAPI.reverse_geocode_coords
    rw [hlon, hlat]
    simp only [Bool.or_self, Bool.false_eq_true, if_false]
    rw [if_neg (by omega), hn2]
    unfold NaverGeocodingAPI.reverse_body
    rcases hn3 with h | h <;> simp [h, pyOr, Json.truthy]

/-- C1 witness. -/
theorem c1_zero_entries_absent_result_witness :
    KakaoGeocodingAPI.reverse_geocode_coords
        ⟨200, some (Json.obj [("documents", Json.arr [])])⟩
        (Json.num 127) (Json.num 37) false = (none, 1)
    ∧ NaverGeocodingAPI.reverse_geocode_coords
        ⟨200, some (Json.obj [("results", Json.arr [])])⟩
        (Json.num 127) (Json.num 37) false = (none, 1) :=
  c1_zero_entries_absent_result
    ⟨200, some (Json.obj [("documents", Json.arr [])])⟩
    ⟨200, some (Json.obj [("results", Json.arr [])])⟩
    (Json.num 127) (Json.num 37) false [("documents", Json.arr [])]
    [("results", Json.arr [])]
    (by decide) rfl (Or.inl rfl) (by decide) rfl (Or.inl rfl) rfl rfl

/-! ## C3: missing or empty inputs short-circuit without a network call -/

/-- C3: a missing (None/NaN) or empty address, and a missing coordinate on
either side, make the adapters return an absent result with zero HTTP
requests issued, on both providers. -/
theorem c3_missing_input_no_request :
    ∀ (resp : HttpResponse) (a lon lat : Json) (incl : Bool),
      ((a = Json.null ∨ a = Json.str "") →
        KakaoGeocodingAPI.geocode_address resp a = (none, 0) ∧
        NaverGeocodingAPI.geocode_address resp a = (none, 0)) ∧
      ((lon = Json.null ∨ lat = Json.null) →
        KakaoGeocodingAPI.reverse_geocode_coords resp lon lat incl = (none, 0) ∧
        NaverGeocodingAPI.reverse_geocode_coords resp lon lat incl = (none, 0)) := by
  intro resp a lon lat incl
  constructor
  · intro h
    rcases h with h | h <;> subst h <;>
      constructor <;>
        simp [KakaoGeocodingAPI.geocode_address, NaverGeocodingAPI.geocode_address,
          Json.isNull, pyEqStr]
  · intro h
    rcases h with h | h <;> subst h <;>
      constructor <;>
        simp [KakaoGeocodingAPI.reverse_geocode_coords,
          NaverGeocodingAPI.reverse_geocode_coords, Json.isNull]

/-- C3 witness. -/
theorem c3_missing_input_no_request_witness :
    (KakaoGeocodingAPI.geocode_address ⟨200, none⟩ Json.null = (none, 0) ∧
     NaverGeocodingAPI.geocode_address ⟨200, none⟩ Json.null = (none, 0)) ∧
    (KakaoGeocodingAPI.reverse_geocode_coords ⟨200, none⟩ Json.null (Json.num 37) true
        = (none, 0) ∧
     NaverGeocodingAPI.reverse_geocode_coords ⟨200, none⟩ Json.null (Json.num 37) true
        = (none, 0)) :=
  ⟨(c3_missing_input_no_request ⟨200, none⟩ Json.null Json.null (Json.num 37) true).1
      (Or.inl rfl),
   (c3_missing_input_no_request ⟨200, none⟩ Json.null Json.null (Json.num 37) true).2
      (Or.inl rfl)⟩

/-! ## C6, C8, C9: provider dispatch -/

/-- C6 counterexample: the empty string is a provider name whose trimmed,
lower-cased form is neither `"kakao"` nor `"naver"`, yet `_get_provider`
does not raise on it — it silently resolves to the Kakao adapter. -/
theorem c6_counterexample :
    (_get_provider (fun _ => true) (some "") DispatchState.start).2 = Except.ok 0
    ∧ pyLower (pyStrip "") ≠ "kakao" ∧ pyLower (pyStrip "") ≠ "naver" :=
  ⟨rfl, by decide, by decide⟩

/-- C6 (amended): for every non-empty provider name whose trimmed,
lower-cased form is neither `"kakao"` nor `"naver"`, `_get_provider` raises
`ValueError` with the dispatch state unchanged (no adapter constructed, no
network call); the batch entry points called with such a name fail with the
same error, the dispatch state unchanged and no row processed. -/
theorem c6_invalid_provider_raises :
    ∀ (env : Provider → Bool) (st : DispatchState) (s : String),
      s ≠ "" → pyLower (pyStrip s) ≠ "kakao" → pyLower (pyStrip s) ≠ "naver" →
      _get_provider env (some s) st = (st, .error providerErrMsg) ∧
      (∀ apiOf hp dfRef a l t, a ∈ (hp.getD dfRef default : Frame).cols →
        geocode env apiOf st hp dfRef a l t (some s) =
          (hp ++ [hp.getD dfRef default], st, .error providerErrMsg)) ∧
      (∀ apiOf2 hp dfRef l t a r incl,
        l ∈ (hp.getD dfRef default : Frame).cols →
        t ∈ (hp.getD dfRef default : Frame).cols →
        reverse_geocode env apiOf2 st hp dfRef l t a r incl (some s) =
          (hp ++ [hp.getD dfRef default], st, .error providerErrMsg)) := by
  intro env st s hne hk hn
  have hkey : _provider_key (some s) = pyLower (pyStrip s) := by
    simp only [_provider_key]
    rw [if_neg hne]
  have hmain : _get_provider env (some s) st = (st, .error providerErrMsg) := by
    unfold _get_provider
    rw [hkey, if_pos ⟨hk, hn⟩]
  refine ⟨hmain, ?_, ?_⟩
  · intro apiOf hp dfRef a l t ha
    unfold geocode
    rw [if_pos ha, hmain]
  · intro apiOf2 hp dfRef l t a r incl hl ht
    unfold reverse_geocode
    rw [if_pos hl, if_pos ht, hmain]

/-- C6 witness at the spec's example name `"Bing"`. -/
theorem c6_invalid_provider_raises_witness :
    _get_provider (fun _ => true) (some "Bing") DispatchState.start =
      (DispatchState.start, .error providerErrMsg) :=
  (c6_invalid_provider_raises (fun _ => true) DispatchState.start "Bing"
    (by decide) (by decide) (by decide)).1

/-- C8: a successful `_get_provider` call caches one instance per provider
with no eviction: repeating the call returns the identical instance id with
the state unchanged, the resolved name is cached afterwards, earlier cache
entries survive, a cache hit leaves the state untouched, and a cache miss
constructs exactly the resolved provider's adapter. -/
theorem c8_provider_cache :
    ∀ (env : Provider → Bool) (provider : Option String)
      (st st1 : DispatchState) (i : Nat),
      _get_provider env provider st = (st1, .ok i) →
      _get_provider env provider st1 = (st1, .ok i) ∧
      st1.instances.lookup (_provider_key provider) = some i ∧
      (∀ q j, st.instances.lookup q = some j → st1.instances.lookup q = some j) ∧
      (st.instances.lookup (_provider_key provider) = some i → st1 = st) ∧
      (st.instances.lookup (_provider_key provider) = none →
        st1.constructions = st.constructions ++ [resolvedProvider provider]) := by
  intro env provider st st1 i h
  unfold _get_provider at h
  by_cases hp : _provider_key provider ≠ "kakao" ∧ _provider_key provider ≠ "naver"
  · rw [if_pos hp] at h
    injection h with h1 h2
    exact Except.noConfusion h2
  · rw [if_neg hp] at h
    have hor : _provider_key provider = "kakao" ∨ _provider_key provider = "naver" := by
      rcases not_and_or.mp hp with h1 | h1
      · exact Or.inl (not_not.mp h1)
      · exact Or.inr (not_not.mp h1)
    rcases hl : List.lookup (_provider_key provider) st.instances with _ | j
    · rw [hl] at h
      by_cases henv : env (if _provider_key provider = "kakao"
          then Provider.kakao else Provider.naver) = true
      · rw [if_pos henv] at h
        injection h with h1 h2
        injection h2 with h2
        subst h1
        subst h2
        have hlook : List.lookup (_provider_key provider)
            (st.instances ++ [(_provider_key provider, st.nextId)]) = some st.nextId := by
          rw [lookup_append, hl]
          simp [List.lookup]
        refine ⟨?_, hlook, ?_, ?_, ?_⟩
        · unfold _get_provider
          rw [if_neg hp]
          simp only []
          rw [hlook]
        · intro q j hq
          simp only []
          rw [lookup_append, hq]
          rfl
        · intro hc
          exact Option.noConfusion hc
        · intro _
          show st.constructions ++ [if _provider_key provider = "kakao"
              then Provider.kakao else Provider.naver] =
            st.constructions ++ [resolvedProvider provider]
          have hres : (if _provider_key provider = "kakao" then Provider.kakao
              else Provider.naver) = resolvedProvider provider := by
            unfold resolvedProvider
            rcases hor with h1 | h1
            · rw [h1, if_pos rfl, if_neg (by decide)]
            · rw [h1, if_neg (by decide), if_pos rfl]
          rw [hres]
      · rw [if_neg henv] at h
        injection h with h1 h2
        exact Except.noConfusion h2
    · rw [hl] at h
      injection h with h1 h2
      injection h2 with h2
      subst h1
      subst h2
      refine ⟨?_, hl, fun q j hq => hq, fun _ => rfl,
        fun hc => Option.noConfusion hc⟩
      unfold _get_provider
      rw [if_neg hp]
      simp only []
      rw [hl]

/-- C8 witness: the first call for `"kakao"` constructs and caches the
adapter; the theorem then gives the identical instance on the repeat call. -/
theorem c8_provider_cache_witness :
    _get_provider (fun _ => true) (some "kakao")
      ⟨[("kakao", 0)], 1, [Provider.kakao]⟩ =
      (⟨[("kakao", 0)], 1, [Provider.kakao]⟩, .ok 0) :=
  (c8_provider_cache (fun _ => true) (some "kakao") DispatchState.start
    ⟨[("kakao", 0)], 1, [Provider.kakao]⟩ 0 rfl).1

/-- C9 counterexample: a whitespace-only provider name raises the
invalid-argument failure instead of defaulting to the Kakao adapter. -/
theorem c9_counterexample :
    (_get_provider (fun _ => true) (some " ") DispatchState.start).2 =
      Except.error providerErrMsg :=
  rfl

/-- C9 (amended): `_get_provider` treats `None` and the empty string as the
default provider `"kakao"`, but a whitespace-only non-empty name normalises
to the empty string and raises the invalid-argument failure. -/
theorem c9_falsy_name_defaults :
    ∀ (env : Provider → Bool) (st : DispatchState),
      _get_provider env none st = _get_provider env (some "kakao") st ∧
      _get_provider env (some "") st = _get_provider env (some "kakao") st ∧
      (∀ s, s ≠ "" → pyStrip s = "" →
        _get_provider env (some s) st = (st, .error providerErrMsg)) := by
  intro env st
  refine ⟨rfl, rfl, ?_⟩
  intro s hne hstrip
  have hkey : _provider_key (some s) = "" := by
    simp only [_provider_key]
    rw [if_neg hne, hstrip]
    rfl
  unfold _get_provider
  rw [hkey, if_pos (by decide)]

/-- C9 witness. -/
theorem c9_falsy_name_defaults_witness :
    _get_provider (fun _ => true) (some "  ") DispatchState.start =
      (DispatchState.start, .error providerErrMsg) :=
  ((c9_falsy_name_defaults (fun _ => true) DispatchState.start).2.2 "  "
    (by decide) (by decide))

/-! ## C2: detail-mode reverse-geocode schema -/

/-- The ten keys of the road namespace of a Kakao detail-mode result, in
insertion order. -/
def kakaoRoadKeys : List String :=
  "road_address" :: "road_zone_no" :: roadDetailKeys

/-- The ten keys of the lot-number namespace of a Kakao detail-mode
result, in insertion order. -/
def kakaoAddrKeys : List String :=
  "address" :: addressDetailKeys

/-- The twenty keys of a Kakao detail-mode reverse-geocode result, in
insertion order. -/
def kakaoDetailKeys : List String :=
  kakaoRoadKeys ++ kakaoAddrKeys

/-- The keys the Naver reverse response never supplies: always bound to the
empty string by the adapter (src/geocoding.py lines 340, 345-346, 348,
353-358). -/
def naverUnsuppliedKeys : List String :=
  ["road_zone_no", "road_main_building_no", "road_sub_building_no",
   "road_underground_yn", "address_region_3depth_h", "address_h_code",
   "address_b_code", "address_main_no", "address_sub_no", "address_mountain_yn"]

/-- In detail mode the road half of a Kakao result always carries exactly
the ten road keys. -/
theorem roadPart_keys :
    ∀ (doc : Json) (l : List (String × Json)),
      KakaoGeocodingAPI.roadPart doc true = some l →
      l.map Prod.fst = kakaoRoadKeys := by
  intro doc l h
  unfold KakaoGeocodingAPI.roadPart at h
  repeat' (first | exact Option.noConfusion h | split at h)
  all_goals
    first
      | (injection h with h; subst h; rfl)
      | simp_all

/-- In detail mode the lot-number half of a Kakao result always carries
exactly the ten address keys. -/
theorem addrPart_keys :
    ∀ (doc : Json) (l : List (String × Json)),
      KakaoGeocodingAPI.addrPart doc true = some l →
      l.map Prod.fst = kakaoAddrKeys := by
  intro doc l h
  unfold KakaoGeocodingAPI.addrPart at h
  repeat' (first | exact Option.noConfusion h | split at h)
  all_goals
    first
      | (injection h with h; subst h; rfl)
      | simp_all

/-- Same key property for the road half of the legacy module. -/
theorem legacyRoadPart_keys :
    ∀ (doc : Json) (l : List (String × Json)),
      kakaoLegacyRoadPart doc true = some l →
      l.map Prod.fst = kakaoRoadKeys := by
  intro doc l h
  unfold kakaoLegacyRoadPart at h
  repeat' (first | exact Option.noConfusion h | split at h)
  all_goals
    first
      | (injection h with h; subst h; rfl)
      | simp_all

/-- Same key property for the lot-number half of the legacy module. -/
theorem legacyAddrPart_keys :
    ∀ (doc : Json) (l : List (String × Json)),
      kakaoLegacyAddrPart doc true = some l →
      l.map Prod.fst = kakaoAddrKeys := by
  intro doc l h
  unfold kakaoLegacyAddrPart at h
  repeat' (first | exact Option.noConfusion h | split at h)
  all_goals
    first
      | (injection h with h; subst h; rfl)
      | simp_all

/-- A successful Kakao detail-mode result carries exactly the twenty keys. -/
theorem kakao_reverse_keys :
    ∀ (data : Json) (out : List (String × Json)),
      KakaoGeocodingAPI.reverse_body data true = some out →
      out.map Prod.fst = kakaoDetailKeys := by
  intro data out h
  unfold KakaoGeocodingAPI.reverse_body at h
  rcases hd : pyGetD data "documents" (.arr []) with _ | documents
  · rw [hd] at h
    exact Option.noConfusion h
  · simp only [hd] at h
    by_cases ht : documents.truthy = true
    · rw [if_pos ht] at h
      rcases hz : pyIndexZero documents with _ | doc
      · rw [hz] at h
        exact Option.noConfusion h
      · simp only [hz] at h
        rcases hr : KakaoGeocodingAPI.roadPart doc true with _ | rp
        · simp only [hr] at h
          exact Option.noConfusion h
        · rcases ha : KakaoGeocodingAPI.addrPart doc true with _ | ap
          · simp only [hr, ha] at h
            exact Option.noConfusion h
          · simp only [hr, ha] at h
            injection h with h
            subst h
            rw [List.map_append, roadPart_keys doc rp hr, addrPart_keys doc ap ha]
            rfl
    · rw [if_neg ht] at h
      exact Option.noConfusion h

/-- A successful legacy detail-mode result carries exactly the same twenty
keys. -/
theorem kakao_legacy_reverse_keys :
    ∀ (data : Json) (out : List (String × Json)),
      kakaoLegacyReverseBody data true = some out →
      out.map Prod.fst = kakaoDetailKeys := by
  intro data out h
  unfold kakaoLegacyReverseBody at h
  rcases hd : pyGetD data "documents" (.arr []) with _ | documents
  · rw [hd] at h
    exact Option.noConfusion h
  · simp only [hd] at h
    by_cases ht : documents.truthy = true
    · rw [if_pos ht] at h
      rcases hz : pyIndexZero documents with _ | doc
      · rw [hz] at h
        exact Option.noConfusion h
      · simp only [hz] at h
        rcases hr : kakaoLegacyRoadPart doc true with _ | rp
        · simp only [hr] at h
          exact Option.noConfusion h
        · rcases ha : kakaoLegacyAddrPart doc true with _ | ap
          · simp only [hr, ha] at h
            exact Option.noConfusion h
          · simp only [hr, ha] at h
            injection h with h
            subst h
            rw [List.map_append, legacyRoadPart_keys doc rp hr,
              legacyAddrPart_keys doc ap ha]
            rfl
    · rw [if_neg ht] at h
      exact Option.noConfusion h

/-- An absent or null `road_address` namespace yields the all-empty road
half. -/
theorem roadPart_of_missing :
    ∀ (kvs : List (String × Json)),
      (kvs.lookup "road_address" = none ∨ kvs.lookup "road_address" = some Json.null) →
      KakaoGeocodingAPI.roadPart (.obj kvs) true =
        some (kakaoRoadKeys.map (fun k => (k, Json.str ""))) := by
  intro kvs h
  unfold KakaoGeocodingAPI.roadPart
  rcases h with h | h
  · simp [pyContains, h, kakaoRoadKeys]
  · simp [pyContains, pySubscriptStr, h, Json.truthy, kakaoRoadKeys]

/-- An absent or null `address` namespace yields the all-empty lot-number
half. -/
theorem addrPart_of_missing :
    ∀ (kvs : List (String × Json)),
      (kvs.lookup "address" = none ∨ kvs.lookup "address" = some Json.null) →
      KakaoGeocodingAPI.addrPart (.obj kvs) true =
        some (kakaoAddrKeys.map (fun k => (k, Json.str ""))) := by
  intro kvs h
  unfold KakaoGeocodingAPI.addrPart
  rcases h with h | h
  · simp [pyContains, h, kakaoAddrKeys]
  · simp [pyContains, pySubscriptStr, h, Json.truthy, kakaoAddrKeys]

/-- A successful Naver detail-mode result carries exactly its twenty keys,
and the keys the vendor never supplies are bound to the empty string. -/
theorem naver_reverse_keys :
    ∀ (data : Json) (out : List (String × Json)),
      NaverGeocodingAPI.reverse_body data true = some out →
      out.map Prod.fst = naverDetailKeys ∧
      (∀ k, k ∈ naverUnsuppliedKeys → out.lookup k = some (Json.str "")) := by
  intro data out h
  simp only [NaverGeocodingAPI.reverse_body] at h
  repeat' (first | exact Option.noConfusion h | split at h)
  all_goals
    first
      | ((injection h with h; subst h);
         refine ⟨rfl, ?_⟩;
         intro k hk;
         fin_cases hk <;> rfl)
      | simp_all

/-- Concrete Kakao response whose document has null namespaces. -/
def c2KakaoDoc : Json :=
  Json.obj [("documents",
    Json.arr [Json.obj [("road_address", Json.null), ("address", Json.null)]])]

/-- Concrete Kakao response whose document has absent namespaces. -/
def c2LegacyDoc : Json :=
  Json.obj [("documents", Json.arr [Json.obj []])]

/-- The all-empty Kakao detail-mode result. -/
def c2EmptyOut : List (String × Json) :=
  kakaoDetailKeys.map (fun k => (k, Json.str ""))

/-- Concrete Naver response carrying a bare `addr` entry. -/
def c2NaverData : Json :=
  Json.obj [("results", Json.arr [Json.obj [("name", Json.str "addr")]])]

/-- The all-empty Naver detail-mode result. -/
def c2NaverOut : List (String × Json) :=
  naverDetailKeys.map (fun k => (k, Json.str ""))

/-! ## C4: Naver result-entry selection -/

/-- `x or []` on a results list is the list itself. -/
theorem pyOr_arr_empty (rs : List Json) : pyOr (.arr rs) (.arr []) = .arr rs := by
  unfold pyOr
  by_cases h : (Json.arr rs).truthy = true
  · rw [if_pos h]
  · rw [if_neg h]
    rcases rs with _ | ⟨a, t⟩
    · rfl
    · simp [Json.truthy] at h

/-- C4 counterexample: with a single result entry named neither
`"roadaddr"` nor `"addr"` but carrying text `"T"`, the adapter leaves both
headline fields empty instead of filling them from the first entry. -/
theorem c4_counterexample :
    NaverGeocodingAPI.reverse_body
        (Json.obj [("results",
          Json.arr [Json.obj [("name", Json.str "x"), ("text", Json.str "T")]])])
        true =
      some (naverDetailKeys.map (fun k => (k, Json.str ""))) ∧
    _naver_result_text (Json.obj [("name", Json.str "x"), ("text", Json.str "T")]) =
      some "T" :=
  ⟨rfl, rfl⟩

/-- C4 (amended): the Naver adapter derives `road_address` from the entry
named `"roadaddr"` and `address` from the entry named `"addr"`, using the
empty string when the respective entry is absent; the fall-back to the
first entry of the array applies only to the shared base entry from which
the region detail fields are read. -/
theorem c4_naver_entry_selection :
    ∀ (kvs : List (String × Json)) (rs : List Json) (incl : Bool)
      (out : List (String × Json)),
      kvs.lookup "results" = some (Json.arr rs) →
      NaverGeocodingAPI.reverse_body (Json.obj kvs) incl = some out →
      ((_pick_naver_result rs "roadaddr" = none →
         out.lookup "road_address" = some (Json.str "")) ∧
       (∀ r s, _pick_naver_result rs "roadaddr" = some r →
         _naver_result_text r = some s →
         out.lookup "road_address" = some (Json.str s)) ∧
       (_pick_naver_result rs "addr" = none →
         out.lookup "address" = some (Json.str "")) ∧
       (∀ r s, _pick_naver_result rs "addr" = some r →
         _naver_result_text r = some s →
         out.lookup "address" = some (Json.str s)) ∧
       (incl = true → _pick_naver_result rs "roadaddr" = none →
         _pick_naver_result rs "addr" = none →
         ∀ b a1v, rs.head? = some b →
           naverAreaName (naverRegionOf b) "area1" = some a1v →
           out.lookup "road_region_1depth" = some a1v ∧
           out.lookup "address_region_1depth" = some a1v)) := by
  intro kvs rs incl out hk h
  simp only [NaverGeocodingAPI.reverse_body, hk, Option.getD_some,
    pyOr_arr_empty] at h
  rcases rs with _ | ⟨r0, rtl⟩
  · simp [Json.truthy] at h
  · rw [if_pos (by rfl)] at h
    simp only [pyIter] at h
    refine ⟨?_, ?_, ?_, ?_, ?_⟩
    · intro hroad
      simp only [hroad] at h
      repeat' (first | exact Option.noConfusion h | split at h)
      all_goals (try (injection h with h))
      all_goals (try subst h)
      all_goals (try simp only [Option.some.injEq] at *)
      all_goals (try subst_vars)
      all_goals rfl
    · intro r s hr hs
      simp only [hr, hs] at h
      repeat' (first | exact Option.noConfusion h | split at h)
      all_goals (try (injection h with h))
      all_goals (try subst h)
      all_goals (try simp only [Option.some.injEq] at *)
      all_goals (try subst_vars)
      all_goals rfl
    · intro haddr
      simp only [haddr] at h
      repeat' (first | exact Option.noConfusion h | split at h)
      all_goals (try (injection h with h))
      all_goals (try subst h)
      all_goals (try simp only [Option.some.injEq] at *)
      all_goals (try subst_vars)
      all_goals rfl
    · intro a s ha hs
      simp only [ha, hs] at h
      repeat' (first | exact Option.noConfusion h | split at h)
      all_goals (try (injection h with h))
      all_goals (try subst h)
      all_goals (try simp only [Option.some.injEq] at *)
      all_goals (try subst_vars)
      all_goals rfl
    · intro hincl hroad haddr b a1v hb ha1
      subst hincl
      injection hb with hb
      subst hb
      simp only [hroad, haddr, pyIndexZero, List.head?] at h
      simp only [ha1] at h
      repeat' (first | exact Option.noConfusion h | split at h)
      all_goals (try (injection h with h))
      all_goals (try subst h)
      all_goals (try simp only [Option.some.injEq] at *)
      all_goals (try subst_vars)
      all_goals (first | exact ⟨rfl, rfl⟩ | simp_all)

/-- Concrete Naver result entry named `roadaddr` with text `"R"`. -/
def c4RoadEntry : Json :=
  Json.obj [("name", Json.str "roadaddr"), ("text", Json.str "R")]

/-- Concrete Naver result entry named `addr` with text `"A"`. -/
def c4AddrEntry : Json :=
  Json.obj [("name", Json.str "addr"), ("text", Json.str "A")]

/-- C4 witness. -/
theorem c4_naver_entry_selection_witness :
    NaverGeocodingAPI.reverse_body
        (Json.obj [("results", Json.arr [c4RoadEntry, c4AddrEntry])]) false =
      some [("road_address", Json.str "R"), ("address", Json.str "A")] ∧
    List.lookup "road_address"
        [("road_address", Json.str "R"), ("address", Json.str "A")] =
      some (Json.str "R") ∧
    List.lookup "address"
        [("road_address", Json.str "R"), ("address", Json.str "A")] =
      some (Json.str "A") :=
  ⟨rfl,
   (c4_naver_entry_selection [("results", Json.arr [c4RoadEntry, c4AddrEntry])]
      [c4RoadEntry, c4AddrEntry] false
      [("road_address", Json.str "R"), ("address", Json.str "A")]
      rfl rfl).2.1 c4RoadEntry "R" rfl rfl,
   (c4_naver_entry_selection [("results", Json.arr [c4RoadEntry, c4AddrEntry])]
      [c4RoadEntry, c4AddrEntry] false
      [("road_address", Json.str "R"), ("address", Json.str "A")]
      rfl rfl).2.2.2.1 c4AddrEntry "A" rfl rfl⟩

/-! ## C5: Naver headline text derivation -/

/-- `x or ""` on a string value is the value itself. -/
theorem pyOr_str_empty (s : String) :
    pyOr (Json.str s) (Json.str "") = Json.str s := by
  unfold pyOr
  by_cases h : (Json.str s).truthy = true
  · rw [if_pos h]
  · rw [if_neg h]
    simp only [Json.truthy, bne_iff_ne, ne_eq, Decidable.not_not] at h
    rw [h]

/-- A hyphen-joined lot number is never the empty string. -/
theorem hyphen_append_ne_empty (n1 n2 : String) : (n1 ++ "-" ++ n2) ≠ "" := by
  intro h
  have h2 := congrArg String.length h
  rw [String.length_append, String.length_append] at h2
  have e1 : ("-" : String).length = 1 := rfl
  have e2 : ("" : String).length = 0 := rfl
  rw [e1, e2] at h2
  omega

/-- A Naver result entry built from its schema fields: an optional
free-text field, the four region area names, and the land name and lot
number parts.  An empty string plays the role of an absent value, exactly
as the adapter's truthiness tests treat it. -/
def mkNaverEntry (text : Option String) (a1 a2 a3 a4 lname n1 n2 : String) : Json :=
  Json.obj ((match text with
    | some t => [("text", Json.str t)]
    | none => []) ++
    [("region", Json.obj [("area1", Json.obj [("name", Json.str a1)]),
                          ("area2", Json.obj [("name", Json.str a2)]),
                          ("area3", Json.obj [("name", Json.str a3)]),
                          ("area4", Json.obj [("name", Json.str a4)])]),
     ("land", Json.obj [("name", Json.str lname), ("number1", Json.str n1),
                        ("number2", Json.str n2)])])

/-- The synthesised headline text as the spec words it (spec-side
definition for C5): the space-joined concatenation of the non-empty region
area names, then the land name if non-empty, then the lot number rendered
as `main-sub` when a sub part exists and `main` otherwise. -/
def c5Synth (a1 a2 a3 a4 lname n1 n2 : String) : String :=
  String.intercalate " "
    (([a1, a2, a3, a4].filter (fun s => s != "")) ++
     (if lname != "" then [lname] else []) ++
     (if n1 != "" then [if n2 != "" then n1 ++ "-" ++ n2 else n1] else []))

/-- The region/land tail every `mkNaverEntry` carries. -/
def mkNaverTail (a1 a2 a3 a4 lname n1 n2 : String) : List (String × Json) :=
  [("region", Json.obj [("area1", Json.obj [("name", Json.str a1)]),
                        ("area2", Json.obj [("name", Json.str a2)]),
                        ("area3", Json.obj [("name", Json.str a3)]),
                        ("area4", Json.obj [("name", Json.str a4)])]),
   ("land", Json.obj [("name", Json.str lname), ("number1", Json.str n1),
                      ("number2", Json.str n2)])]

/-- On a schema-shaped entry the synthesised text matches the spec-side
formula, given trim-invariant field values. -/
theorem naverSynthText_tail :
    ∀ (a1 a2 a3 a4 lname n1 n2 : String),
      pyStrip a1 = a1 → pyStrip a2 = a2 → pyStrip a3 = a3 → pyStrip a4 = a4 →
      pyStrip lname = lname → pyStrip n1 = n1 → pyStrip n2 = n2 →
      pyStrip (n1 ++ "-" ++ n2) = n1 ++ "-" ++ n2 →
      naverSynthText (mkNaverTail a1 a2 a3 a4 lname n1 n2) =
        some (c5Synth a1 a2 a3 a4 lname n1 n2) := by
  intro a1 a2 a3 a4 lname n1 n2 h1 h2 h3 h4 h5 h6 h7 h8
  have key : naverSynthText (mkNaverTail a1 a2 a3 a4 lname n1 n2) =
      some (String.intercalate " "
        (((([Json.str a1, Json.str a2, Json.str a3, Json.str a4].filter Json.truthy) ++
           (if (pyOr (Json.str lname) (Json.str "")).truthy then
              [Json.str (pyStr (pyOr (Json.str lname) (Json.str "")))] else []) ++
           (if (pyOr (Json.str n1) (Json.str "")).truthy then
              [Json.str (if (pyOr (Json.str n2) (Json.str "")).truthy then
                  pyStr (pyOr (Json.str n1) (Json.str "")) ++ "-" ++
                    pyStr (pyOr (Json.str n2) (Json.str ""))
                else pyStr (pyOr (Json.str n1) (Json.str "")))] else [])).map
            (fun p => pyStrip (pyStr p))).filter (fun s => s != ""))) := rfl
  rw [key]
  simp only [pyOr_str_empty]
  simp only [List.map_append, List.filter_append]
  have hA : (([Json.str a1, Json.str a2, Json.str a3, Json.str a4].filter
        Json.truthy).map (fun p => pyStrip (pyStr p))).filter (fun s => s != "") =
      [a1, a2, a3, a4].filter (fun s => s != "") := by
    by_cases e1 : a1 = "" <;> by_cases e2 : a2 = "" <;> by_cases e3 : a3 = "" <;>
      by_cases e4 : a4 = "" <;>
      simp [Json.truthy, pyStr, e1, e2, e3, e4, h1, h2, h3, h4]
  have hL : (((if (Json.str lname).truthy then [Json.str (pyStr (Json.str lname))]
        else []) : List Json).map (fun p => pyStrip (pyStr p))).filter
        (fun s => s != "") =
      (if lname != "" then [lname] else []) := by
    by_cases e5 : lname = "" <;> simp [Json.truthy, pyStr, e5, h5]
  have hN : (((if (Json.str n1).truthy then
        [Json.str (if (Json.str n2).truthy then
            pyStr (Json.str n1) ++ "-" ++ pyStr (Json.str n2)
          else pyStr (Json.str n1))] else []) : List Json).map
          (fun p => pyStrip (pyStr p))).filter (fun s => s != "") =
      (if n1 != "" then [if n2 != "" then n1 ++ "-" ++ n2 else n1] else []) := by
    by_cases e6 : n1 = "" <;> by_cases e7 : n2 = "" <;>
      simp [Json.truthy, pyStr, e6, e7, h6, h7, h8, hyphen_append_ne_empty]
  rw [hA, hL, hN]
  rfl

/-- Same statement with a `text` field preceding the region/land tail. -/
theorem naverSynthText_text_tail :
    ∀ (t a1 a2 a3 a4 lname n1 n2 : String),
      pyStrip a1 = a1 → pyStrip a2 = a2 → pyStrip a3 = a3 → pyStrip a4 = a4 →
      pyStrip lname = lname → pyStrip n1 = n1 → pyStrip n2 = n2 →
      pyStrip (n1 ++ "-" ++ n2) = n1 ++ "-" ++ n2 →
      naverSynthText (("text", Json.str t) :: mkNaverTail a1 a2 a3 a4 lname n1 n2) =
        some (c5Synth a1 a2 a3 a4 lname n1 n2) := by
  intro t a1 a2 a3 a4 lname n1 n2 h1 h2 h3 h4 h5 h6 h7 h8
  have key : naverSynthText
      (("text", Json.str t) :: mkNaverTail a1 a2 a3 a4 lname n1 n2) =
      naverSynthText (mkNaverTail a1 a2 a3 a4 lname n1 n2) := rfl
  rw [key]
  exact naverSynthText_tail a1 a2 a3 a4 lname n1 n2 h1 h2 h3 h4 h5 h6 h7 h8

/-- C5: for every Naver result entry, the derived headline text is the
trimmed free-text field when that field is a non-blank string, and
otherwise the spec-side synthesis `c5Synth` (non-empty region area names,
then the land name when non-empty, then the lot number as `main-sub` or
`main`), given trim-invariant field values. -/
theorem c5_naver_headline_text :
    ∀ (text : Option String) (a1 a2 a3 a4 lname n1 n2 : String),
      pyStrip a1 = a1 → pyStrip a2 = a2 → pyStrip a3 = a3 → pyStrip a4 = a4 →
      pyStrip lname = lname → pyStrip n1 = n1 → pyStrip n2 = n2 →
      pyStrip (n1 ++ "-" ++ n2) = n1 ++ "-" ++ n2 →
      _naver_result_text (mkNaverEntry text a1 a2 a3 a4 lname n1 n2) =
        some (match text with
          | some t => if pyStrip t ≠ "" then pyStrip t
              else c5Synth a1 a2 a3 a4 lname n1 n2
          | none => c5Synth a1 a2 a3 a4 lname n1 n2) := by
  intro text a1 a2 a3 a4 lname n1 n2 h1 h2 h3 h4 h5 h6 h7 h8
  cases text with
  | none =>
    have hred : _naver_result_text (mkNaverEntry none a1 a2 a3 a4 lname n1 n2) =
        naverSynthText (mkNaverTail a1 a2 a3 a4 lname n1 n2) := rfl
    rw [hred]
    exact naverSynthText_tail a1 a2 a3 a4 lname n1 n2 h1 h2 h3 h4 h5 h6 h7 h8
  | some t =>
    have hred : _naver_result_text (mkNaverEntry (some t) a1 a2 a3 a4 lname n1 n2) =
        (if pyStrip t ≠ "" then some (pyStrip t)
         else naverSynthText
           (("text", Json.str t) :: mkNaverTail a1 a2 a3 a4 lname n1 n2)) := rfl
    rw [hred]
    show _ = some (if pyStrip t ≠ "" then pyStrip t
      else c5Synth a1 a2 a3 a4 lname n1 n2)
    by_cases ht : pyStrip t = ""
    · rw [if_neg (not_not_intro ht), if_neg (not_not_intro ht)]
      exact naverSynthText_text_tail t a1 a2 a3 a4 lname n1 n2
        h1 h2 h3 h4 h5 h6 h7 h8
    · rw [if_pos ht, if_pos ht]

/-- C5 witness. -/
theorem c5_naver_headline_text_witness :
    _naver_result_text (mkNaverEntry none "서울특별시" "강남구" "역삼동" "" "" "736" "21") =
      some (c5Synth "서울특별시" "강남구" "역삼동" "" "" "736" "21") ∧
    c5Synth "서울특별시" "강남구" "역삼동" "" "" "736" "21" = "서울특별시 강남구 역삼동 736-21" ∧
    _naver_result_text (mkNaverEntry (some " 도로명길 12 ") "a" "b" "c" "" "" "" "") =
      some (if pyStrip " 도로명길 12 " ≠ "" then pyStrip " 도로명길 12 "
        else c5Synth "a" "b" "c" "" "" "" "") ∧
    pyStrip " 도로명길 12 " = "도로명길 12" :=
  ⟨c5_naver_headline_text none "서울특별시" "강남구" "역삼동" "" "" "736" "21"
     rfl rfl rfl rfl rfl rfl rfl rfl,
   rfl,
   c5_naver_headline_text (some " 도로명길 12 ") "a" "b" "c" "" "" "" ""
     rfl rfl rfl rfl rfl rfl rfl rfl,
   rfl⟩

/-! ## C7, C10: the batch loops -/

/-- Setting at the length of the left part of an append sets the head of
the right part. -/
theorem set_append_len {α : Type} (A : List α) :
    ∀ (B : List α) (v : α), (A ++ B).set A.length v = A ++ B.set 0 v := by
  induction A with
  | nil => intro B v; rfl
  | cons a t ih =>
    intro B v
    simp only [List.cons_append, List.length_cons, List.set]
    exact congrArg (List.cons a) (ih B v)

/-- After processing the first `n` positions, the loop of `framePassRows`
has replaced exactly the rows before `n` and left the rest untouched. -/
theorem framePassRows_aux (step : List Json → List Json) :
    ∀ (n : Nat) (rows : List (List Json)), n ≤ rows.length →
      (List.range n).foldl (fun acc i => acc.set i (step (acc.getD i []))) rows =
        (rows.take n).map step ++ rows.drop n := by
  intro n
  induction n with
  | zero => intro rows _; simp
  | succ n ih =>
    intro rows hn
    have hn' : n < rows.length := hn
    rw [List.range_succ, List.foldl_append, ih rows (Nat.le_of_succ_le hn)]
    have hlen : ((rows.take n).map step).length = n := by
      rw [List.length_map, List.length_take]
      omega
    have hdrop : rows.drop n = rows[n] :: rows.drop (n + 1) :=
      List.drop_eq_getElem_cons hn'
    have harg : ((rows.take n).map step ++ rows.drop n).getD n [] = rows[n] := by
      rw [List.getD_eq_getElem?_getD,
        List.getElem?_append_right (le_of_eq hlen), hlen, Nat.sub_self, hdrop]
      simp [List.getElem?_eq_getElem hn']
    simp only [List.foldl_cons, List.foldl_nil]
    rw [harg]
    have hset := set_append_len ((rows.take n).map step) (rows.drop n)
      (step rows[n])
    rw [hlen] at hset
    rw [hset, hdrop]
    simp only [List.set]
    rw [List.take_succ, List.getElem?_eq_getElem hn']
    simp
    rw [List.take_succ, List.getElem?_map, List.getElem?_eq_getElem hn']
    simp

/-- The row loop of the batch runner is exactly a row-wise map: output row
`i` is the row step applied to input row `i`, for every `i`. -/
theorem framePassRows_eq_map (step : List Json → List Json)
    (rows : List (List Json)) :
    framePassRows step rows = rows.map step := by
  unfold framePassRows
  rw [framePassRows_aux step rows.length rows (le_refl _),
    List.take_length, List.drop_length]
  simp

/-- `df[c] = v` keeps the number of rows. -/
theorem setColAll_rows_length (f : Frame) (c : String) (v : Json) :
    (f.setColAll c v).rows.length = f.rows.length := by
  unfold Frame.setColAll
  cases f.colIdx c <;> simp

/-- Initialising a list of columns keeps the number of rows. -/
theorem foldl_setColAll_rows_length (cs : List String) :
    ∀ (f : Frame), (cs.foldl (fun g c => g.setColAll c .null) f).rows.length =
      f.rows.length := by
  induction cs with
  | nil => intro f; rfl
  | cons c t ih =>
    intro f
    rw [List.foldl_cons, ih, setColAll_rows_length]

/-- The frame `reverse_geocode` works on after its output columns are
initialised (src/geocoding.py lines 476-501). -/
def reverseInitFrame (df : Frame) (address_column road_address_column : String)
    (include_details : Bool) : Frame :=
  let df1 := (df.setColAll address_column .null).setColAll road_address_column .null
  if include_details then
    detail_columns.foldl (fun g c => g.setColAll c .null) df1
  else df1

/-- C7: both batch loops preserve the input's row count, and output row `i`
is exactly the per-row step applied to input row `i` of the
output-column-initialised frame, for every `i` and every adapter behaviour
— so row order is preserved, each output row depends only on its own input
row, and rows written earlier are untouched by later failures.  On top, a
successful public `geocode`/`reverse_geocode` call returns precisely that
frame for the caller's input frame. -/
theorem c7_row_correspondence :
    (∀ (api : Json → Option (List (String × Json))) (df : Frame)
        (a l t : String),
      (geocodeFrame api df a l t).cols =
        ((df.setColAll l Json.null).setColAll t Json.null).cols ∧
      (geocodeFrame api df a l t).rows.length = df.rows.length ∧
      (∀ (i : Nat), (geocodeFrame api df a l t).rows[i]? =
        (((df.setColAll l Json.null).setColAll t Json.null).rows[i]?).map
          (geocodeRowStep api
            ((df.setColAll l Json.null).setColAll t Json.null).cols a l t))) ∧
    (∀ (api2 : Json → Json → Option (List (String × Json))) (df : Frame)
        (l t ac rc : String) (incl : Bool),
      (reverseGeocodeFrame api2 df l t ac rc incl).cols =
        (reverseInitFrame df ac rc incl).cols ∧
      (reverseGeocodeFrame api2 df l t ac rc incl).rows.length =
        df.rows.length ∧
      (∀ (i : Nat), (reverseGeocodeFrame api2 df l t ac rc incl).rows[i]? =
        ((reverseInitFrame df ac rc incl).rows[i]?).map
          (reverseRowStep api2 (reverseInitFrame df ac rc incl).cols
            l t ac rc incl))) ∧
    (∀ env apiOf st hp dfRef a l t provider hp2 st2 r,
      geocode env apiOf st hp dfRef a l t provider = (hp2, st2, .ok r) →
      hp2.getD r default =
        geocodeFrame (apiOf (resolvedProvider provider))
          (hp.getD dfRef default) a l t) ∧
    (∀ env apiOf2 st hp dfRef l t ac rc incl provider hp2 st2 r,
      reverse_geocode env apiOf2 st hp dfRef l t ac rc incl provider =
        (hp2, st2, .ok r) →
      hp2.getD r default =
        reverseGeocodeFrame (apiOf2 (resolvedProvider provider))
          (hp.getD dfRef default) l t ac rc incl) := by
  refine ⟨?_, ?_, ?_, ?_⟩
  · intro api df a l t
    refine ⟨rfl, ?_, ?_⟩
    · show (framePassRows _ _).length = _
      rw [framePassRows_eq_map, List.length_map,
        setColAll_rows_length, setColAll_rows_length]
    · intro i
      show (framePassRows _ _)[i]? = _
      rw [framePassRows_eq_map, List.getElem?_map]
  · intro api2 df l t ac rc incl
    refine ⟨rfl, ?_, ?_⟩
    · show (framePassRows _ _).length = _
      rw [framePassRows_eq_map, List.length_map]
      show (reverseInitFrame df ac rc incl).rows.length = _
      unfold reverseInitFrame
      cases incl <;>
        simp [setColAll_rows_length, foldl_setColAll_rows_length]
    · intro i
      show (framePassRows _ _)[i]? = _
      rw [framePassRows_eq_map, List.getElem?_map]
      rfl
  · intro env apiOf st hp dfRef a l t provider hp2 st2 r h
    unfold geocode at h
    by_cases hc : a ∈ (hp.getD dfRef default : Frame).cols
    · rw [if_pos hc] at h
      rcases hg : _get_provider env provider st with ⟨st1, e⟩
      rw [hg] at h
      cases e with
      | error e =>
        injection h with h1 h2
        injection h2 with h2 h3
        exact Except.noConfusion h3
      | ok j =>
        injection h with h1 h2
        injection h2 with h2 h3
        injection h3 with h3
        subst h1
        subst h3
        rw [List.getD_eq_getElem?_getD,
          List.getElem?_append_right (le_refl hp.length), Nat.sub_self]
        rfl
    · rw [if_neg hc] at h
      injection h with h1 h2
      injection h2 with h2 h3
      exact Except.noConfusion h3
  · intro env apiOf2 st hp dfRef l t ac rc incl provider hp2 st2 r h
    unfold reverse_geocode at h
    by_cases hc1 : l ∈ (hp.getD dfRef default : Frame).cols
    · rw [if_pos hc1] at h
      by_cases hc2 : t ∈ (hp.getD dfRef default : Frame).cols
      · rw [if_pos hc2] at h
        rcases hg : _get_provider env provider st with ⟨st1, e⟩
        rw [hg] at h
        cases e with
        | error e =>
          injection h with h1 h2
          injection h2 with h2 h3
          exact Except.noConfusion h3
        | ok j =>
          injection h with h1 h2
          injection h2 with h2 h3
          injection h3 with h3
          subst h1
          subst h3
          rw [List.getD_eq_getElem?_getD,
            List.getElem?_append_right (le_refl hp.length), Nat.sub_self]
          rfl
      · rw [if_neg hc2] at h
        injection h with h1 h2
        injection h2 with h2 h3
        exact Except.noConfusion h3
    · rw [if_neg hc1] at h
      injection h with h1 h2
      injection h2 with h2 h3
      exact Except.noConfusion h3

/-- A one-row frame used by the batch witnesses. -/
def c7Frame : Frame :=
  ⟨["addr"], [[Json.str "서울 강남대로"]]⟩

/-- C7 witness: a concrete successful `geocode` call, whose returned frame
is the frame-level loop result. -/
theorem c7_row_correspondence_witness :
    geocode (fun _ => true) (fun _ _ => none) DispatchState.start [c7Frame] 0
        "addr" "longitude" "latitude" (some "kakao") =
      ([c7Frame, geocodeFrame (fun _ => none) c7Frame "addr" "longitude" "latitude"],
       ⟨[("kakao", 0)], 1, [Provider.kakao]⟩, .ok 1) ∧
    ([c7Frame, geocodeFrame (fun _ => none) c7Frame "addr" "longitude" "latitude"] :
        Heap).getD 1 default =
      geocodeFrame ((fun (_ : Provider) (_ : Json) =>
          (none : Option (List (String × Json)))) (resolvedProvider (some "kakao")))
        (([c7Frame] : Heap).getD 0 default) "addr" "longitude" "latitude" :=
  ⟨rfl,
   c7_row_correspondence.2.2.1 (fun _ => true) (fun _ _ => none)
     DispatchState.start [c7Frame] 0 "addr" "longitude" "latitude" (some "kakao")
     [c7Frame, geocodeFrame (fun _ => none) c7Frame "addr" "longitude" "latitude"]
     ⟨[("kakao", 0)], 1, [Provider.kakao]⟩ 1 rfl⟩


/-! ## C2 (revised): the full empty-string binding -/

/-- Result key / vendor key correspondence of the Kakao road namespace
(src/geocoding.py lines 127-138). -/
def kakaoRoadPairs : List (String × String) :=
  [("road_address", "address_name"), ("road_zone_no", "zone_no"),
   ("road_region_1depth", "region_1depth_name"),
   ("road_region_2depth", "region_2depth_name"),
   ("road_region_3depth", "region_3depth_name"),
   ("road_name", "road_name"),
   ("road_main_building_no", "main_building_no"),
   ("road_sub_building_no", "sub_building_no"),
   ("road_building_name", "building_name"),
   ("road_underground_yn", "underground_yn")]

/-- Result key / vendor key correspondence of the Kakao lot-number
namespace (src/geocoding.py lines 155-166). -/
def kakaoAddrPairs : List (String × String) :=
  [("address", "address_name"),
   ("address_region_1depth", "region_1depth_name"),
   ("address_region_2depth", "region_2depth_name"),
   ("address_region_3depth", "region_3depth_name"),
   ("address_region_3depth_h", "region_3depth_h_name"),
   ("address_h_code", "h_code"), ("address_b_code", "b_code"),
   ("address_main_no", "main_address_no"), ("address_sub_no", "sub_address_no"),
   ("address_mountain_yn", "mountain_yn")]

/-- With a present, non-empty `road_address` object every road key is bound
to `road.get(<vendor key>, "")`. -/
theorem roadPart_filled :
    ∀ (kvs road : List (String × Json)),
      kvs.lookup "road_address" = some (Json.obj road) → road ≠ [] →
      KakaoGeocodingAPI.roadPart (Json.obj kvs) true =
        some (kakaoRoadPairs.map
          (fun p => (p.1, (road.lookup p.2).getD (Json.str "")))) := by
  intro kvs road h hne
  rcases road with _ | ⟨q, rest⟩
  · exact absurd rfl hne
  · unfold KakaoGeocodingAPI.roadPart
    simp [pyContains, pySubscriptStr, h, Json.truthy, kakaoRoadPairs]

/-- With a present, non-empty `address` object every address key is bound
to `addr.get(<vendor key>, "")`. -/
theorem addrPart_filled :
    ∀ (kvs addr : List (String × Json)),
      kvs.lookup "address" = some (Json.obj addr) → addr ≠ [] →
      KakaoGeocodingAPI.addrPart (Json.obj kvs) true =
        some (kakaoAddrPairs.map
          (fun p => (p.1, (addr.lookup p.2).getD (Json.str "")))) := by
  intro kvs addr h hne
  rcases addr with _ | ⟨q, rest⟩
  · exact absurd rfl hne
  · unfold KakaoGeocodingAPI.addrPart
    simp [pyContains, pySubscriptStr, h, Json.truthy, kakaoAddrPairs]

/-- A vendor field missing inside a present road object leaves its result
key bound to the empty string. -/
theorem roadPart_missing_field :
    ∀ (kvs road : List (String × Json)) (rk vk : String)
      (out : List (String × Json)),
      kvs.lookup "road_address" = some (Json.obj road) → road ≠ [] →
      (rk, vk) ∈ kakaoRoadPairs → road.lookup vk = none →
      KakaoGeocodingAPI.roadPart (Json.obj kvs) true = some out →
      out.lookup rk = some (Json.str "") := by
  intro kvs road rk vk out h hne hm hv hout
  rw [roadPart_filled kvs road h hne] at hout
  injection hout with hout
  subst hout
  fin_cases hm <;> simp [kakaoRoadPairs, List.lookup, hv]

/-- A vendor field missing inside a present address object leaves its
result key bound to the empty string. -/
theorem addrPart_missing_field :
    ∀ (kvs addr : List (String × Json)) (rk vk : String)
      (out : List (String × Json)),
      kvs.lookup "address" = some (Json.obj addr) → addr ≠ [] →
      (rk, vk) ∈ kakaoAddrPairs → addr.lookup vk = none →
      KakaoGeocodingAPI.addrPart (Json.obj kvs) true = some out →
      out.lookup rk = some (Json.str "") := by
  intro kvs addr rk vk out h hne hm hv hout
  rw [addrPart_filled kvs addr h hne] at hout
  injection hout with hout
  subst hout
  fin_cases hm <;> simp [kakaoAddrPairs, List.lookup, hv]

/-- An absent `road_address` key in the legacy module yields the all-empty
road half (kakao_geocoding.py lines 185-196). -/
theorem legacyRoadPart_of_missing :
    ∀ (kvs : List (String × Json)),
      kvs.lookup "road_address" = none →
      kakaoLegacyRoadPart (Json.obj kvs) true =
        some (kakaoRoadKeys.map (fun k => (k, Json.str ""))) := by
  intro kvs h
  unfold kakaoLegacyRoadPart
  simp [pyContains, h, kakaoRoadKeys]

/-- An absent `address` key in the legacy module yields the all-empty
lot-number half (kakao_geocoding.py lines 213-224). -/
theorem legacyAddrPart_of_missing :
    ∀ (kvs : List (String × Json)),
      kvs.lookup "address" = none →
      kakaoLegacyAddrPart (Json.obj kvs) true =
        some (kakaoAddrKeys.map (fun k => (k, Json.str ""))) := by
  intro kvs h
  unfold kakaoLegacyAddrPart
  simp [pyContains, h, kakaoAddrKeys]

/-- A present-but-null `road_address` makes the legacy module raise
(`None.get` has no attribute) and the call return `None`
(kakao_geocoding.py lines 171-173). -/
theorem legacyRoadPart_null :
    ∀ (kvs : List (String × Json)),
      kvs.lookup "road_address" = some Json.null →
      kakaoLegacyRoadPart (Json.obj kvs) true = none := by
  intro kvs h
  unfold kakaoLegacyRoadPart
  simp [pyContains, pySubscriptStr, h]

/-- A present-but-null `address` makes the legacy module raise and the
call return `None` (kakao_geocoding.py lines 199-201). -/
theorem legacyAddrPart_null :
    ∀ (kvs : List (String × Json)),
      kvs.lookup "address" = some Json.null →
      kakaoLegacyAddrPart (Json.obj kvs) true = none := by
  intro kvs h
  unfold kakaoLegacyAddrPart
  simp [pyContains, pySubscriptStr, h]

/-- When a named Naver entry is absent, every field derived from it is
bound to the empty string (src/geocoding.py lines 329-330, 344, 347). -/
theorem naver_absent_entries :
    ∀ (kvs : List (String × Json)) (rs : List Json) (out : List (String × Json)),
      kvs.lookup "results" = some (Json.arr rs) →
      NaverGeocodingAPI.reverse_body (Json.obj kvs) true = some out →
      (_pick_naver_result rs "roadaddr" = none →
        out.lookup "road_address" = some (Json.str "") ∧
        out.lookup "road_name" = some (Json.str "") ∧
        out.lookup "road_building_name" = some (Json.str "")) ∧
      (_pick_naver_result rs "addr" = none →
        out.lookup "address" = some (Json.str "")) := by
  intro kvs rs out hk h
  simp only [NaverGeocodingAPI.reverse_body, hk, Option.getD_some,
    pyOr_arr_empty] at h
  rcases rs with _ | ⟨r0, rtl⟩
  · simp [Json.truthy] at h
  · rw [if_pos (by rfl)] at h
    simp only [pyIter] at h
    constructor
    · intro hroad
      simp only [hroad] at h
      repeat' (first | exact Option.noConfusion h | split at h)
      all_goals (try (injection h with h))
      all_goals (try subst h)
      all_goals (try simp only [Option.some.injEq] at *)
      all_goals (try subst_vars)
      all_goals (first | exact ⟨rfl, rfl, rfl⟩ | simp_all)
    · intro haddr
      simp only [haddr] at h
      repeat' (first | exact Option.noConfusion h | split at h)
      all_goals (try (injection h with h))
      all_goals (try subst h)
      all_goals (try simp only [Option.some.injEq] at *)
      all_goals (try subst_vars)
      all_goals (first | rfl | simp_all)

/-- C2 counterexample: on a document whose `road_address` and `address`
namespaces are present but null, the cited legacy module returns an absent
result (`None`) instead of a mapping with empty strings, while the new
adapter returns the all-empty twenty-key mapping. -/
theorem c2_counterexample :
    kakaoLegacyReverseBody c2KakaoDoc true = none ∧
    KakaoGeocodingAPI.reverse_body c2KakaoDoc true = some c2EmptyOut :=
  ⟨rfl, rfl⟩

/-- C2 (amended): every successful detail-mode reverse-geocode result, on
either provider and also through the legacy module, has exactly the fixed
set of twenty keys (the same set for both providers), and every key whose
data the vendor did not supply is bound to the empty string: a vendor
field missing inside a present namespace object, an entire absent or null
namespace (src/geocoding.py), an absent named Naver entry, and the fields
Naver never provides.  Through the legacy kakao_geocoding.py module the
same holds for absent namespaces, but a present-but-null namespace makes
the call raise internally and return `None` instead of empty strings. -/
theorem c2_detail_schema :
    (∀ data out, KakaoGeocodingAPI.reverse_body data true = some out →
       out.map Prod.fst = kakaoDetailKeys) ∧
    kakaoDetailKeys.length = 20 ∧
    (∀ (kvs road : List (String × Json)),
       kvs.lookup "road_address" = some (Json.obj road) → road ≠ [] →
       KakaoGeocodingAPI.roadPart (Json.obj kvs) true =
         some (kakaoRoadPairs.map
           (fun p => (p.1, (road.lookup p.2).getD (Json.str ""))))) ∧
    (∀ (kvs addr : List (String × Json)),
       kvs.lookup "address" = some (Json.obj addr) → addr ≠ [] →
       KakaoGeocodingAPI.addrPart (Json.obj kvs) true =
         some (kakaoAddrPairs.map
           (fun p => (p.1, (addr.lookup p.2).getD (Json.str ""))))) ∧
    (∀ (kvs road : List (String × Json)) (rk vk : String)
       (out : List (String × Json)),
       kvs.lookup "road_address" = some (Json.obj road) → road ≠ [] →
       (rk, vk) ∈ kakaoRoadPairs → road.lookup vk = none →
       KakaoGeocodingAPI.roadPart (Json.obj kvs) true = some out →
       out.lookup rk = some (Json.str "")) ∧
    (∀ (kvs addr : List (String × Json)) (rk vk : String)
       (out : List (String × Json)),
       kvs.lookup "address" = some (Json.obj addr) → addr ≠ [] →
       (rk, vk) ∈ kakaoAddrPairs → addr.lookup vk = none →
       KakaoGeocodingAPI.addrPart (Json.obj kvs) true = some out →
       out.lookup rk = some (Json.str "")) ∧
    (∀ kvs, (kvs.lookup "road_address" = none ∨
         kvs.lookup "road_address" = some Json.null) →
       KakaoGeocodingAPI.roadPart (.obj kvs) true =
         some (kakaoRoadKeys.map (fun k => (k, Json.str "")))) ∧
    (∀ kvs, (kvs.lookup "address" = none ∨ kvs.lookup "address" = some Json.null) →
       KakaoGeocodingAPI.addrPart (.obj kvs) true =
         some (kakaoAddrKeys.map (fun k => (k, Json.str "")))) ∧
    (∀ data out, NaverGeocodingAPI.reverse_body data true = some out →
       out.map Prod.fst = naverDetailKeys ∧
       (∀ k, k ∈ naverUnsuppliedKeys → out.lookup k = some (Json.str ""))) ∧
    (∀ (kvs : List (String × Json)) (rs : List Json)
       (out : List (String × Json)),
       kvs.lookup "results" = some (Json.arr rs) →
       NaverGeocodingAPI.reverse_body (Json.obj kvs) true = some out →
       (_pick_naver_result rs "roadaddr" = none →
         out.lookup "road_address" = some (Json.str "") ∧
         out.lookup "road_name" = some (Json.str "") ∧
         out.lookup "road_building_name" = some (Json.str "")) ∧
       (_pick_naver_result rs "addr" = none →
         out.lookup "address" = some (Json.str ""))) ∧
    List.Perm naverDetailKeys kakaoDetailKeys ∧
    (∀ data out, kakaoLegacyReverseBody data true = some out →
       out.map Prod.fst = kakaoDetailKeys) ∧
    (∀ (kvs : List (String × Json)),
       kvs.lookup "road_address" = none →
       kakaoLegacyRoadPart (Json.obj kvs) true =
         some (kakaoRoadKeys.map (fun k => (k, Json.str "")))) ∧
    (∀ (kvs : List (String × Json)),
       kvs.lookup "address" = none →
       kakaoLegacyAddrPart (Json.obj kvs) true =
         some (kakaoAddrKeys.map (fun k => (k, Json.str "")))) ∧
    (∀ (kvs : List (String × Json)),
       kvs.lookup "road_address" = some Json.null →
       kakaoLegacyRoadPart (Json.obj kvs) true = none) ∧
    (∀ (kvs : List (String × Json)),
       kvs.lookup "address" = some Json.null →
       kakaoLegacyAddrPart (Json.obj kvs) true = none) :=
  ⟨kakao_reverse_keys, by decide, roadPart_filled, addrPart_filled,
   roadPart_missing_field, addrPart_missing_field, roadPart_of_missing,
   addrPart_of_missing, naver_reverse_keys, naver_absent_entries, by decide,
   kakao_legacy_reverse_keys, legacyRoadPart_of_missing,
   legacyAddrPart_of_missing, legacyRoadPart_null, legacyAddrPart_null⟩

/-- A road object carrying only `address_name` (so every other vendor
field is missing). -/
def c2Road : List (String × Json) :=
  [("address_name", Json.str "X")]

/-- A document whose road namespace is `c2Road`. -/
def c2RoadDoc : List (String × Json) :=
  [("road_address", Json.obj c2Road)]

/-- An address object carrying only `address_name`. -/
def c2Addr : List (String × Json) :=
  [("address_name", Json.str "Y")]

/-- A document whose address namespace is `c2Addr`. -/
def c2AddrDoc : List (String × Json) :=
  [("address", Json.obj c2Addr)]

/-- C2 witness. -/
theorem c2_detail_schema_witness :
    KakaoGeocodingAPI.reverse_body c2KakaoDoc true = some c2EmptyOut ∧
    c2EmptyOut.map Prod.fst = kakaoDetailKeys ∧
    KakaoGeocodingAPI.roadPart (Json.obj c2RoadDoc) true =
      some (kakaoRoadPairs.map
        (fun p => (p.1, (c2Road.lookup p.2).getD (Json.str "")))) ∧
    KakaoGeocodingAPI.addrPart (Json.obj c2AddrDoc) true =
      some (kakaoAddrPairs.map
        (fun p => (p.1, (c2Addr.lookup p.2).getD (Json.str "")))) ∧
    (kakaoRoadPairs.map
      (fun p => (p.1, (c2Road.lookup p.2).getD (Json.str "")))).lookup
        "road_zone_no" = some (Json.str "") ∧
    (kakaoAddrPairs.map
      (fun p => (p.1, (c2Addr.lookup p.2).getD (Json.str "")))).lookup
        "address_h_code" = some (Json.str "") ∧
    KakaoGeocodingAPI.roadPart (Json.obj [("road_address", Json.null)]) true =
      some (kakaoRoadKeys.map (fun k => (k, Json.str ""))) ∧
    KakaoGeocodingAPI.addrPart (Json.obj []) true =
      some (kakaoAddrKeys.map (fun k => (k, Json.str ""))) ∧
    NaverGeocodingAPI.reverse_body c2NaverData true = some c2NaverOut ∧
    c2NaverOut.map Prod.fst = naverDetailKeys ∧
    c2NaverOut.lookup "road_zone_no" = some (Json.str "") ∧
    (c2NaverOut.lookup "road_address" = some (Json.str "") ∧
     c2NaverOut.lookup "road_name" = some (Json.str "") ∧
     c2NaverOut.lookup "road_building_name" = some (Json.str "")) ∧
    kakaoLegacyReverseBody c2LegacyDoc true = some c2EmptyOut ∧
    kakaoLegacyRoadPart (Json.obj []) true =
      some (kakaoRoadKeys.map (fun k => (k, Json.str ""))) ∧
    kakaoLegacyAddrPart (Json.obj []) true =
      some (kakaoAddrKeys.map (fun k => (k, Json.str ""))) ∧
    kakaoLegacyRoadPart (Json.obj [("road_address", Json.null)]) true = none ∧
    kakaoLegacyAddrPart (Json.obj [("address", Json.null)]) true = none :=
  ⟨rfl,
   c2_detail_schema.1 c2KakaoDoc c2EmptyOut rfl,
   c2_detail_schema.2.2.1 c2RoadDoc c2Road rfl (List.cons_ne_nil _ _),
   c2_detail_schema.2.2.2.1 c2AddrDoc c2Addr rfl (List.cons_ne_nil _ _),
   c2_detail_schema.2.2.2.2.1 c2RoadDoc c2Road "road_zone_no" "zone_no"
     (kakaoRoadPairs.map (fun p => (p.1, (c2Road.lookup p.2).getD (Json.str ""))))
     rfl (List.cons_ne_nil _ _) (by decide) rfl
     (c2_detail_schema.2.2.1 c2RoadDoc c2Road rfl (List.cons_ne_nil _ _)),
   c2_detail_schema.2.2.2.2.2.1 c2AddrDoc c2Addr "address_h_code" "h_code"
     (kakaoAddrPairs.map (fun p => (p.1, (c2Addr.lookup p.2).getD (Json.str ""))))
     rfl (List.cons_ne_nil _ _) (by decide) rfl
     (c2_detail_schema.2.2.2.1 c2AddrDoc c2Addr rfl (List.cons_ne_nil _ _)),
   c2_detail_schema.2.2.2.2.2.2.1 [("road_address", Json.null)] (Or.inr rfl),
   c2_detail_schema.2.2.2.2.2.2.2.1 [] (Or.inl rfl),
   rfl,
   (c2_detail_schema.2.2.2.2.2.2.2.2.1 c2NaverData c2NaverOut rfl).1,
   (c2_detail_schema.2.2.2.2.2.2.2.2.1 c2NaverData c2NaverOut rfl).2
     "road_zone_no" (by decide),
   (c2_detail_schema.2.2.2.2.2.2.2.2.2.1 [("results",
       Json.arr [Json.obj [("name", Json.str "addr")]])]
     [Json.obj [("name", Json.str "addr")]] c2NaverOut rfl rfl).1 rfl,
   rfl,
   c2_detail_schema.2.2.2.2.2.2.2.2.2.2.2.2.1 [] rfl,
   c2_detail_schema.2.2.2.2.2.2.2.2.2.2.2.2.2.1 [] rfl,
   c2_detail_schema.2.2.2.2.2.2.2.2.2.2.2.2.2.2.1
     [("road_address", Json.null)] rfl,
   c2_detail_schema.2.2.2.2.2.2.2.2.2.2.2.2.2.2.2
     [("address", Json.null)] rfl⟩

/-! ## C10 (revised): no caller-frame mutation, including the legacy module

The legacy batch entry points (kakao_geocoding.py lines 251-310 and
313-471) have the same structure as the src/geocoding.py ones minus the
provider dispatch: column check, `df = df.copy()`, `_get_api_instance()`
(which raises on missing credentials, modelled by the `env` flag), output
column initialisation, then the row loop.  The legacy geocode loop writes
`result["longitude"]`/`result["latitude"]` by subscript (lines 297-298),
so a missing key raises out of the loop after any writes already made to
the copy; the legacy reverse loop uses `result.get(...)` with defaults
exactly like src/geocoding.py, so it is the same frame transformation. -/

/-- One iteration of the legacy geocode loop (kakao_geocoding.py lines
292-302): the returned flag says whether a `KeyError` was raised, after
the writes made so far. -/
def kakaoLegacyGeocodeRowStep (api : Json → Option (List (String × Json)))
    (cols : List String)
    (address_column longitude_column latitude_column : String)
    (row : List Json) : List Json × Bool :=
  let address := rowGet cols row address_column
  match api address with
  | some result =>
    if result.isEmpty then (row, false)
    else
      match result.lookup "longitude" with
      | none => (row, true)
      | some lv =>
        let row1 := rowSet cols row longitude_column lv
        match result.lookup "latitude" with
        | none => (row1, true)
        | some tv => (rowSet cols row1 latitude_column tv, false)
  | none => (row, false)

/-- The legacy row loop: like `framePassRows`, but a raised flag aborts the
remaining iterations (the exception propagates out of the `for`). -/
def framePassRowsE (step : List Json → List Json × Bool)
    (rows : List (List Json)) : List (List Json) × Bool :=
  (List.range rows.length).foldl
    (fun acc i =>
      if acc.2 then acc
      else
        let r := step (acc.1.getD i [])
        (acc.1.set i r.1, r.2))
    (rows, false)

/-- The legacy `geocode` body after column validation and construction:
initialise the two output columns, run the loop, report whether it raised. -/
def kakaoLegacyGeocodeFrame (api : Json → Option (List (String × Json)))
    (df : Frame) (address_column longitude_column latitude_column : String) :
    Frame × Bool :=
  let df1 := (df.setColAll longitude_column .null).setColAll latitude_column .null
  let r := framePassRowsE
    (kakaoLegacyGeocodeRowStep api df1.cols address_column longitude_column
      latitude_column) df1.rows
  (⟨df1.cols, r.1⟩, r.2)

/-- The legacy public `geocode` (kakao_geocoding.py lines 251-310), with
frame aliasing explicit.  In source order: the column check (line 280),
`df = df.copy()` (line 283, allocating the frame every later write goes
to), `_get_api_instance()` (line 284, raising when credentials are
absent), then the loop on the copy. -/
def kakao_geocoding_geocode (env : Bool)
    (api : Json → Option (List (String × Json))) (hp : Heap) (dfRef : Nat)
    (address_column longitude_column latitude_column : String) :
    Heap × Except String Nat :=
  let df := hp.getD dfRef default
  if address_column ∈ df.cols then
    if env then
      let r := kakaoLegacyGeocodeFrame api df address_column longitude_column
        latitude_column
      (hp ++ [r.1], if r.2 then .error "KeyError" else .ok hp.length)
    else (hp ++ [df], .error credentialsErrMsg)
  else
    (hp, .error ("컬럼 \x27" ++ address_column ++ "\x27이 데이터프레임에 없습니다."))

/-- The legacy public `reverse_geocode` (kakao_geocoding.py lines
313-471), with frame aliasing explicit; its loop body is line-for-line the
same frame transformation as src/geocoding.py's. -/
def kakao_geocoding_reverse_geocode (env : Bool)
    (api2 : Json → Json → Option (List (String × Json))) (hp : Heap)
    (dfRef : Nat)
    (longitude_column latitude_column address_column road_address_column : String)
    (include_details : Bool) : Heap × Except String Nat :=
  let df := hp.getD dfRef default
  if longitude_column ∈ df.cols then
    if latitude_column ∈ df.cols then
      if env then
        (hp ++ [reverseGeocodeFrame api2 df longitude_column latitude_column
          address_column road_address_column include_details], .ok hp.length)
      else (hp ++ [df], .error credentialsErrMsg)
    else
      (hp, .error ("컬럼 \x27" ++ latitude_column ++ "\x27이 데이터프레임에 없습니다."))
  else
    (hp, .error ("컬럼 \x27" ++ longitude_column ++ "\x27이 데이터프레임에 없습니다."))

/-- C10: none of the four batch entry points — `geocode` and
`reverse_geocode` of src/geocoding.py and of the legacy
src/kakao_geocoding.py — mutates the caller's frame: after the call, the
heap cell the caller's reference denotes is exactly the original frame
with its original columns and values, because every output column is
written only to the internal copy.  This holds on success and on every
error path. -/
theorem c10_caller_frame_unchanged :
    ∀ (env : Provider → Bool) apiOf apiOf2 (envL : Bool)
      (apiL : Json → Option (List (String × Json)))
      (apiL2 : Json → Json → Option (List (String × Json)))
      (st : DispatchState) (hp : Heap) (dfRef : Nat) (a l t ac rc : String)
      (incl : Bool) (provider : Option String),
      dfRef < hp.length →
      ((geocode env apiOf st hp dfRef a l t provider).1)[dfRef]? = hp[dfRef]? ∧
      ((reverse_geocode env apiOf2 st hp dfRef l t ac rc incl
          provider).1)[dfRef]? = hp[dfRef]? ∧
      ((kakao_geocoding_geocode envL apiL hp dfRef a l t).1)[dfRef]? =
        hp[dfRef]? ∧
      ((kakao_geocoding_reverse_geocode envL apiL2 hp dfRef l t ac rc
          incl).1)[dfRef]? = hp[dfRef]? := by
  intro env apiOf apiOf2 envL apiL apiL2 st hp dfRef a l t ac rc incl provider hlt
  refine ⟨?_, ?_, ?_, ?_⟩
  · unfold geocode
    by_cases hc : a ∈ (hp.getD dfRef default : Frame).cols
    · rw [if_pos hc]
      rcases hg : _get_provider env provider st with ⟨st1, e⟩
      cases e <;> simp [List.getElem?_append, hlt]
    · rw [if_neg hc]
  · unfold reverse_geocode
    by_cases hc1 : l ∈ (hp.getD dfRef default : Frame).cols
    · rw [if_pos hc1]
      by_cases hc2 : t ∈ (hp.getD dfRef default : Frame).cols
      · rw [if_pos hc2]
        rcases hg : _get_provider env provider st with ⟨st1, e⟩
        cases e <;> simp [List.getElem?_append, hlt]
      · rw [if_neg hc2]
    · rw [if_neg hc1]
  · unfold kakao_geocoding_geocode
    by_cases hc : a ∈ (hp.getD dfRef default : Frame).cols
    · rw [if_pos hc]
      cases envL <;> simp [List.getElem?_append, hlt]
    · rw [if_neg hc]
  · unfold kakao_geocoding_reverse_geocode
    by_cases hc1 : l ∈ (hp.getD dfRef default : Frame).cols
    · rw [if_pos hc1]
      by_cases hc2 : t ∈ (hp.getD dfRef default : Frame).cols
      · rw [if_pos hc2]
        cases envL <;> simp [List.getElem?_append, hlt]
      · rw [if_neg hc2]
    · rw [if_neg hc1]

/-- C10 witness. -/
theorem c10_caller_frame_unchanged_witness :
    ((geocode (fun _ => true) (fun _ _ => none) DispatchState.start [c7Frame] 0
        "addr" "longitude" "latitude" (some "kakao")).1)[0]? =
      ([c7Frame] : Heap)[0]? ∧
    ((reverse_geocode (fun _ => true) (fun _ _ _ => none) DispatchState.start
        [c7Frame] 0 "lon" "lat" "address" "road_address" true
        (some "kakao")).1)[0]? = ([c7Frame] : Heap)[0]? ∧
    ((kakao_geocoding_geocode true (fun _ => none) [c7Frame] 0
        "addr" "longitude" "latitude").1)[0]? = ([c7Frame] : Heap)[0]? ∧
    ((kakao_geocoding_reverse_geocode true (fun _ _ => none) [c7Frame] 0
        "lon" "lat" "address" "road_address" true).1)[0]? =
      ([c7Frame] : Heap)[0]? :=
  c10_caller_frame_unchanged (fun _ => true) (fun _ _ => none) (fun _ _ _ => none)
    true (fun _ => none) (fun _ _ => none) DispatchState.start [c7Frame] 0
    "addr" "longitude" "latitude" "address" "road_address" true (some "kakao")
    (by decide)
